import Mathlib

/-!
Shallow embedding of the attendance punch verification and integrity pipeline
of the jim-staffing server:

* `server/src/lib/staffingRateLimit.ts`   — sliding-window rate limiter
* `server/src/routes/staffing.ts`         — punch gate (`POST /staffing/events`),
  clock-state replay (`deriveClockState`), weekly reconstruction
  (`buildWeeklyDailyRows`) and the signature endpoint
  (`POST /attendance/:shiftId/signature`)
* `server/src/lib/staffingPunchSecurity.ts` — Wi-Fi allowlist evaluation

Modelling conventions:

* JavaScript numbers holding millisecond timestamps become `Int`; quantities
  that the code compares or divides (meters, hours) become `Rat`.
* The floating-point haversine distance is abstracted as a parameter
  `dist : GeoPoint → ℚ` (the gate only compares it against the site radius).
* Database rows become Lean structures; the Prisma queries of each route
  become explicit filters over a `World` value holding the tables.
* `Array.prototype.sort` with comparator `a.serverTimestamp - b.serverTimestamp`
  is a stable ascending sort; it is modelled by the (stable) insertion sort
  `sortByTs`.
* `sha256Hex` is abstracted as a parameter `hash : String → String`.
-/

/-- StaffingEventType enum from the Prisma schema. -/
inductive StaffingEventType
  | CLOCK_IN
  | LUNCH_START
  | LUNCH_END
  | CLOCK_OUT
deriving Repr, DecidableEq

/-- StaffingEventStatus enum (the routes only ever write OK or BLOCKED;
the schema also lists ADJUSTED, which we keep for faithfulness). -/
inductive StaffingEventStatus
  | OK
  | BLOCKED
  | ADJUSTED
deriving Repr, DecidableEq

/-- StaffingBlockReason enum from the Prisma schema plus the values added by
the init migration. -/
inductive StaffingBlockReason
  | OUT_OF_RANGE
  | PERMISSION_DENIED
  | LOCATION_UNAVAILABLE
  | ACCURACY_LOW
  | INVALID_STATE
  | MISSING_IDEMPOTENCY_KEY
  | REUSED_IDEMPOTENCY_KEY
  | INVALID_PUNCH_TOKEN
  | RATE_LIMITED
deriving Repr, DecidableEq

/-- Wi-Fi allowlist evaluation outcome ('PASS' | 'FAIL' | 'DEV_BYPASS'). -/
inductive WifiAllowlistStatus
  | PASS
  | FAIL
  | DEV_BYPASS
deriving Repr, DecidableEq

/-- StaffingVerificationMethod enum ('wifi' | 'location' | 'both' | 'none'). -/
inductive StaffingVerificationMethod
  | wifi
  | location
  | both
  | none
deriving Repr, DecidableEq

/-- Shift classification stored on CLOCK_OUT events ('DAY' | 'NIGHT'). -/
inductive StaffingShiftType
  | DAY
  | NIGHT
deriving Repr, DecidableEq

/-- StaffingEmploymentType enum ('LTC' | 'STC'). -/
inductive StaffingEmploymentType
  | LTC
  | STC
deriving Repr, DecidableEq

/-- StaffingAgency enum. -/
inductive StaffingAgency
  | PROLOGISTIX
  | STAFF_FORCE
  | BLUECREW
deriving Repr, DecidableEq

/-- Insert `x` into `l`, placing it before the first element whose timestamp is
strictly larger.  Together with `sortByTs` this is the stable ascending sort
performed by `events.sort((a, b) => a.serverTimestamp - b.serverTimestamp)`. -/
def insertByTs {α : Type} (ts : α → Int) (x : α) : List α → List α
  | [] => [x]
  | y :: l => if ts x < ts y then x :: y :: l else y :: insertByTs ts x l

/-- Stable ascending sort by timestamp (model of the JS stable `sort`). -/
def sortByTs {α : Type} (ts : α → Int) (l : List α) : List α :=
  l.foldl (fun acc x => insertByTs ts x acc) []

/-- The projection of a staffing_time_events row selected by the clock-state
queries: `select: { type, status, serverTimestamp }`. -/
structure ClockEvent where
  type : StaffingEventType
  status : StaffingEventStatus
  serverTimestamp : Int
deriving Repr, DecidableEq

/-- Derived clock state as returned by `deriveClockState` (the label/sync
fields of the TS object are presentation-only and omitted). -/
structure DerivedState where
  clockedIn : Bool
  onLunch : Bool
deriving Repr, DecidableEq

/-- Accumulator of the replay loop in `deriveClockState`:
`clockedIn`, `onLunch`, `lunchStartAt`. -/
structure ClockAccum where
  clockedIn : Bool
  onLunch : Bool
  lunchStartAt : Option Int
deriving Repr, DecidableEq

/-- One iteration of the `for (const e of ok)` loop of `deriveClockState`. -/
def clockFoldStep (a : ClockAccum) (e : ClockEvent) : ClockAccum :=
  match e.type with
  | .CLOCK_IN => { clockedIn := true, onLunch := false, lunchStartAt := none }
  | .CLOCK_OUT => { clockedIn := false, onLunch := false, lunchStartAt := none }
  | .LUNCH_START => { a with onLunch := true, lunchStartAt := some e.serverTimestamp }
  | .LUNCH_END => { a with onLunch := false, lunchStartAt := none }

/-- `events.filter((e) => e.status === 'OK').sort(...)` — the OK events in
serverTimestamp order. -/
def okSortedEvents (events : List ClockEvent) : List ClockEvent :=
  sortByTs (fun e => e.serverTimestamp) (events.filter (fun e => e.status = .OK))

/-- The replay loop of `deriveClockState` before the lunch auto-expiry fixup. -/
def clockFold (events : List ClockEvent) : ClockAccum :=
  (okSortedEvents events).foldl clockFoldStep
    { clockedIn := false, onLunch := false, lunchStartAt := none }

/-- `deriveClockState` from `routes/staffing.ts`: replay the OK events in
timestamp order, then auto-expire lunch after 30 minutes (`Date.now()` is
passed in as `now`). -/
def deriveClockState (events : List ClockEvent) (now : Int) : DerivedState :=
  let a := clockFold events
  let expiry : Bool :=
    match a.lunchStartAt with
    | some t => decide (now - t ≥ 30 * 60 * 1000)
    | none => false
  let onLunch := if a.clockedIn && a.onLunch && expiry then false else a.onLunch
  { clockedIn := a.clockedIn, onLunch := onLunch }

/-- The three logical clock states of the sequencing state machine. -/
inductive ClockState
  | OUT
  | IN
  | ON_LUNCH
deriving Repr, DecidableEq

/-- Transition table of the sequencing state machine, as the spec states it
(OUT→IN on CLOCK_IN, IN→ON_LUNCH on LUNCH_START, ON_LUNCH→IN on LUNCH_END,
IN→OUT on CLOCK_OUT); an event not listed for the current state leaves the
state unchanged. -/
def tableStep : ClockState → StaffingEventType → ClockState
  | .OUT, .CLOCK_IN => .IN
  | .IN, .LUNCH_START => .ON_LUNCH
  | .ON_LUNCH, .LUNCH_END => .IN
  | .IN, .CLOCK_OUT => .OUT
  | s, _ => s

/-- Whether the transition table lists `t` as a legal transition from `s`. -/
def legalStep : ClockState → StaffingEventType → Bool
  | .OUT, .CLOCK_IN => true
  | .IN, .LUNCH_START => true
  | .ON_LUNCH, .LUNCH_END => true
  | .IN, .CLOCK_OUT => true
  | _, _ => false

/-- Whether a sequence of event types is a legal trace of the table from `s`. -/
def legalTrace (s : ClockState) : List StaffingEventType → Bool
  | [] => true
  | t :: l => legalStep s t && legalTrace (tableStep s t) l

/-- State produced by folding the transition table over the status-OK events
in serverTimestamp order, starting from OUT (the spec-side replay). -/
def specClockState (events : List ClockEvent) : ClockState :=
  (okSortedEvents events).foldl (fun s e => tableStep s e.type) .OUT

/-- Map the pair of booleans `deriveClockState` returns (and the punch gate
consumes) onto the three-state machine: not clocked in is OUT, clocked in and
on lunch is ON_LUNCH, otherwise IN. -/
def derivedAbs (d : DerivedState) : ClockState :=
  if d.clockedIn = false then .OUT else if d.onLunch then .ON_LUNCH else .IN

/-- The read-time lunch auto-expiry condition of `deriveClockState`: a lunch
was started at some `t` with `now - t ≥ 30` minutes. -/
def lunchExpired (events : List ClockEvent) (now : Int) : Prop :=
  match (clockFold events).lunchStartAt with
  | some t => now - t ≥ 30 * 60 * 1000
  | none => False

instance (events : List ClockEvent) (now : Int) :
    Decidable (lunchExpired events now) := by
  unfold lunchExpired
  cases (clockFold events).lunchStartAt <;> simp <;> infer_instance

/-- Decision returned by `InMemoryRateLimiter.hit`. -/
structure RateLimitDecision where
  allowed : Bool
  remaining : Nat
  retryAfterSeconds : Nat
deriving Repr, DecidableEq

/-- The `prune` helper of `staffingRateLimit.ts`: shift timestamps off the
front of the bucket while they are older than the cutoff. -/
def pruneBucket (cutoff : Int) (ts : List Int) : List Int :=
  ts.dropWhile (fun x => x < cutoff)

/-- `Math.ceil(ms / 1000)` for a non-negative integer millisecond count. -/
def ceilSeconds (ms : Int) : Nat := (ms.toNat + 999) / 1000

/-- `InMemoryRateLimiter.hit` on a single bucket: prune, compare the count to
`maxHits`, and either report the retry delay (bucket unchanged beyond the
prune) or record the hit.  `t` is `Date.now()`. -/
def InMemoryRateLimiter.hit (windowMs : Int) (maxHits : Nat)
    (bucket : List Int) (t : Int) : RateLimitDecision × List Int :=
  let cutoff := t - windowMs
  let b := pruneBucket cutoff bucket
  if maxHits ≤ b.length then
    let oldest := b.head?.getD t
    let retryAfterMs := max 0 (oldest + windowMs - t)
    ({ allowed := false, remaining := 0, retryAfterSeconds := ceilSeconds retryAfterMs }, b)
  else
    ({ allowed := true, remaining := maxHits - (b.length + 1), retryAfterSeconds := 0 },
      b ++ [t])

/-- The limiter's key-indexed bucket map (`Map<Key, WindowBucket>` with a
fresh empty bucket for unknown keys). -/
def RateBuckets : Type := String → List Int

/-- `hit` on the bucket map: read the key's bucket, apply the single-bucket
`hit`, and store the resulting bucket back under the key. -/
def hitKey (windowMs : Int) (maxHits : Nat) (buckets : RateBuckets)
    (key : String) (t : Int) : RateLimitDecision × RateBuckets :=
  let r := InMemoryRateLimiter.hit windowMs maxHits (buckets key) t
  (r.1, fun k => if k = key then r.2 else buckets k)

/-- Geo payload of a punch request (`{ lat, lng, accuracyMeters? }`). -/
structure GeoPoint where
  lat : Rat
  lng : Rat
  accuracyMeters : Option Rat
deriving Repr, DecidableEq

/-- Contractor profile fields consulted by the eligibility gate. -/
structure ContractorProfile where
  employmentType : StaffingEmploymentType
  agency : StaffingAgency
  isActive : Bool
deriving Repr, DecidableEq

/-- A staffing_punch_tokens row. -/
structure PunchTokenRow where
  id : String
  userId : String
  deviceId : String
  userAgentHash : Option String
  tokenHash : String
  issuedAt : Int
  expiresAt : Int
  revokedAt : Option Int
  lastSeenAt : Option Int
deriving Repr, DecidableEq

/-- A staffing_time_events row (every column the routes read or write). -/
structure StaffingTimeEvent where
  id : String
  userId : String
  siteId : Option String
  agency : StaffingAgency
  type : StaffingEventType
  status : StaffingEventStatus
  reason : Option StaffingBlockReason
  serverTimestamp : Int
  createdAt : Int
  clientReportedTimestamp : Option Int
  clientTimeDriftMs : Option Int
  clientTimeDriftFlag : Option Bool
  geoLat : Option Rat
  geoLng : Option Rat
  accuracyMeters : Option Rat
  distanceMeters : Option Rat
  inRange : Bool
  wifiVerified : Bool
  locationVerified : Bool
  verificationMethod : Option StaffingVerificationMethod
  userAgent : String
  notes : Option String
  ipAddress : Option String
  wifiAllowlistStatus : Option WifiAllowlistStatus
  deviceId : Option String
  idempotencyKey : Option String
  punchTokenId : Option String
  signedAt : Option Int
  signaturePngBase64 : Option String
  shiftType : Option StaffingShiftType
deriving Repr, DecidableEq

/-- Projection of an event row to the columns selected by the clock-state
queries. -/
def StaffingTimeEvent.toClockEvent (e : StaffingTimeEvent) : ClockEvent :=
  { type := e.type, status := e.status, serverTimestamp := e.serverTimestamp }

/-- The mutable state the punch endpoints touch: the two database tables, a
fresh-id counter for inserts, and the two module-level rate limiter maps
(`USER_PUNCH_LIMITER`, `IP_PUNCH_LIMITER`). -/
structure World where
  events : List StaffingTimeEvent
  tokens : List PunchTokenRow
  nextEventId : Nat
  userBuckets : RateBuckets
  ipBuckets : RateBuckets

/-- STAFFING_SITE.radiusMeters (1609.344). -/
def siteRadiusMeters : Rat := 1609344 / 1000

/-- `wifi.status === 'PASS' || wifi.status === 'DEV_BYPASS'`. -/
def wifiOkOf (wifi : WifiAllowlistStatus) : Bool :=
  wifi = .PASS || wifi = .DEV_BYPASS

/-- `distanceMeters != null ? distanceMeters <= STAFFING_SITE.radiusMeters :
false`, with `distanceMeters = geo ? haversineMeters(geo, SITE) : null` and
the haversine abstracted as `dist`. -/
def inRangeOf (dist : GeoPoint → Rat) : Option GeoPoint → Bool
  | some g => dist g ≤ siteRadiusMeters
  | none => false

/-- `geo?.accuracyMeters != null ? geo.accuracyMeters <= 200 : geo ? true :
false`. -/
def accuracyOkOf : Option GeoPoint → Bool
  | none => false
  | some g =>
    match g.accuracyMeters with
    | some a => a ≤ 200
    | none => true

/-- `Boolean(geo && inRange && accuracyOk)`. -/
def locOkOf (dist : GeoPoint → Rat) (geo : Option GeoPoint) : Bool :=
  geo.isSome && inRangeOf dist geo && accuracyOkOf geo

/-- The verification gate of `POST /staffing/events` (MUST #1): `none` when
Wi-Fi or location verification passes, otherwise the blocked reason picked by
the source's if-chain (no coordinate, then low accuracy, then out of range,
then the generic denial). -/
def verifGateReason (dist : GeoPoint → Rat) (wifi : WifiAllowlistStatus)
    (geo : Option GeoPoint) : Option StaffingBlockReason :=
  if !wifiOkOf wifi && !locOkOf dist geo then
    some (if geo.isNone then .LOCATION_UNAVAILABLE
      else if !accuracyOkOf geo then .ACCURACY_LOW
      else if !inRangeOf dist geo then .OUT_OF_RANGE
      else .PERMISSION_DENIED)
  else none

/-- `verificationMethod` recorded on every event written by the gate. -/
def verificationMethodOf (dist : GeoPoint → Rat) (wifi : WifiAllowlistStatus)
    (geo : Option GeoPoint) : StaffingVerificationMethod :=
  if wifiOkOf wifi && locOkOf dist geo then .both
  else if wifiOkOf wifi then .wifi
  else if locOkOf dist geo then .location
  else .none

/-- Outcome of `POST /staffing/events` as seen by the caller. -/
inductive PunchOutcome
  | notEligible
  | blocked (reason : StaffingBlockReason)
  | ok (shiftId : Option String)
deriving Repr, DecidableEq

/-- Request data of `POST /staffing/events` (headers already trimmed; an
absent header is the empty string, exactly as `String(... ?? '').trim()`
produces). -/
structure SubmitRequest where
  userId : String
  siteId : Option String
  type : StaffingEventType
  clientReportedTimestamp : Option Int
  geo : Option GeoPoint
  notes : Option String
  deviceIdHeader : String
  punchTokenHeader : String
  idempotencyKeyHeader : String
  userAgent : String

/-- `profile.isActive && (employmentType === 'LTC' || employmentType ===
'STC')`, with the missing-profile case folded in. -/
def eligibleProfile : Option ContractorProfile → Bool
  | none => false
  | some p =>
    p.isActive && (p.employmentType = .LTC || p.employmentType = .STC)

/-- The `invalidState` computation of the route, from the derived state. -/
def invalidStateFor (state : DerivedState) : StaffingEventType → Bool
  | .CLOCK_IN => state.clockedIn
  | .CLOCK_OUT => !state.clockedIn
  | .LUNCH_START => !state.clockedIn || state.onLunch
  | .LUNCH_END => !state.clockedIn || !state.onLunch

/-- The event row every branch of the gate writes (the spread `...baseEvent`),
parameterised by status, reason and punch-token id.  `createdAt` is the
database's insert-time default (CURRENT_TIMESTAMP), taken to be the request's
`serverNow`. -/
def baseEvent (dist : GeoPoint → Rat) (profile : ContractorProfile)
    (wifi : WifiAllowlistStatus) (ipAddress : Option String)
    (req : SubmitRequest) (now : Int) (id : String)
    (status : StaffingEventStatus) (reason : Option StaffingBlockReason)
    (punchTokenId : Option String) : StaffingTimeEvent :=
  let driftMs := req.clientReportedTimestamp.map (fun c => now - c)
  { id := id
    userId := req.userId
    siteId := req.siteId
    agency := profile.agency
    type := req.type
    status := status
    reason := reason
    serverTimestamp := now
    createdAt := now
    clientReportedTimestamp := req.clientReportedTimestamp
    clientTimeDriftMs := driftMs
    clientTimeDriftFlag := driftMs.map (fun d => decide (|d| ≥ 5 * 60 * 1000))
    geoLat := req.geo.map (fun g => g.lat)
    geoLng := req.geo.map (fun g => g.lng)
    accuracyMeters := req.geo.bind (fun g => g.accuracyMeters)
    distanceMeters := req.geo.map dist
    inRange := inRangeOf dist req.geo
    wifiVerified := wifiOkOf wifi
    locationVerified := locOkOf dist req.geo
    verificationMethod := some (verificationMethodOf dist wifi req.geo)
    userAgent := req.userAgent
    notes := req.notes
    ipAddress := ipAddress
    wifiAllowlistStatus := some wifi
    deviceId := if req.deviceIdHeader = "" then none else some req.deviceIdHeader
    idempotencyKey :=
      if req.idempotencyKeyHeader = "" then none else some req.idempotencyKeyHeader
    punchTokenId := punchTokenId
    signedAt := none
    signaturePngBase64 := none
    shiftType := none }

/-- Fresh id for an inserted event row. -/
def freshEventId (w : World) : String := "evt-" ++ toString w.nextEventId

/-- Append a newly created event row. -/
def appendEvent (w : World) (e : StaffingTimeEvent) : World :=
  { w with events := w.events ++ [e], nextEventId := w.nextEventId + 1 }

/-- The events the route loads to validate state transitions:
`findMany({ where: { userId }, orderBy: { serverTimestamp: 'asc' }, take: 500 })`. -/
def loadUserClockEvents (w : World) (userId : String) : List ClockEvent :=
  ((sortByTs (fun e => e.serverTimestamp)
      (w.events.filter (fun e => e.userId = userId))).take 500).map
    StaffingTimeEvent.toClockEvent

/-- The idempotency lookup: `findFirst({ where: { idempotencyKey, createdAt:
{ gte: now - 24h } } })` — any user, any status. -/
def idempotencyKeyExists (w : World) (key : String) (now : Int) : Bool :=
  w.events.any (fun e =>
    e.idempotencyKey = some key && now - 24 * 60 * 60 * 1000 ≤ e.createdAt)

/-- The punch-token lookup: `findFirst({ where: { userId, deviceId, tokenHash,
revokedAt: null, expiresAt: { gt: serverNow } } })`. -/
def findPunchToken (w : World) (userId deviceId tokenHash : String)
    (now : Int) : Option PunchTokenRow :=
  w.tokens.find? (fun t =>
    t.userId = userId && t.deviceId = deviceId && t.tokenHash = tokenHash &&
      t.revokedAt = none && now < t.expiresAt)

/-- Stamp `lastSeenAt` on the consumed punch token. -/
def stampLastSeen (w : World) (tokenId : String) (now : Int) : World :=
  { w with
    tokens := w.tokens.map (fun t =>
      if t.id = tokenId then { t with lastSeenAt := some now } else t) }

/-- The per-address rate-limit key (`ip:` + address, or `ip:unknown`). -/
def ipKeyOf : Option String → String
  | some ip => "ip:" ++ ip
  | none => "ip:unknown"

/-- The `POST /staffing/events` handler: the ordered gate pipeline.  `hash`
abstracts `sha256Hex`, `dist` abstracts the haversine distance to the site,
`profile` is the caller's contractor profile lookup result, `wifi`/`ipAddress`
come from `evalWifiAllowlist` (after the per-user bypass), and `now` is the
request's `serverNow`. -/
def submitPunch (hash : String → String) (dist : GeoPoint → Rat)
    (profile : Option ContractorProfile) (wifi : WifiAllowlistStatus)
    (ipAddress : Option String) (req : SubmitRequest) (now : Int)
    (w : World) : World × PunchOutcome :=
  match profile with
  | none => (w, .notEligible)
  | some p =>
    if !eligibleProfile (some p) then (w, .notEligible)
    else
      let deviceId := req.deviceIdHeader
      let punchToken := req.punchTokenHeader
      let idempotencyKey := req.idempotencyKeyHeader
      let state := deriveClockState (loadUserClockEvents w req.userId) now
      let invalidState := invalidStateFor state req.type
      let mkEv := fun (w' : World) status reason tokId =>
        baseEvent dist p wifi ipAddress req now (freshEventId w') status reason tokId
      -- MUST #1 — verification: warehouse Wi-Fi OR verified location.
      match verifGateReason dist wifi req.geo with
      | some reason =>
        (appendEvent w (mkEv w .BLOCKED (some reason) none), .blocked reason)
      | none =>
        -- Device binding required for punch tokens.
        if deviceId = "" then
          (appendEvent w (mkEv w .BLOCKED (some .PERMISSION_DENIED) none),
            .blocked .PERMISSION_DENIED)
        else
          -- MUST #5 — rate limits (both limiters are hit before the check).
          let ipKey := ipKeyOf ipAddress
          let userKey := "user:" ++ req.userId
          let ipHit := hitKey 60000 30 w.ipBuckets ipKey now
          let userHit := hitKey 60000 10 w.userBuckets userKey now
          let w := { w with ipBuckets := ipHit.2, userBuckets := userHit.2 }
          if !ipHit.1.allowed || !userHit.1.allowed then
            (appendEvent w (mkEv w .BLOCKED (some .RATE_LIMITED) none),
              .blocked .RATE_LIMITED)
          else
            -- MUST #5 — idempotency key required, unused within 24h.
            if idempotencyKey = "" then
              (appendEvent w (mkEv w .BLOCKED (some .MISSING_IDEMPOTENCY_KEY) none),
                .blocked .MISSING_IDEMPOTENCY_KEY)
            else if idempotencyKeyExists w idempotencyKey now then
              (appendEvent w (mkEv w .BLOCKED (some .REUSED_IDEMPOTENCY_KEY) none),
                .blocked .REUSED_IDEMPOTENCY_KEY)
            else
              -- MUST #4 — punch token bound to userId + deviceId (+ UA hash).
              if punchToken = "" then
                (appendEvent w (mkEv w .BLOCKED (some .INVALID_PUNCH_TOKEN) none),
                  .blocked .INVALID_PUNCH_TOKEN)
              else
                let tokenHash := hash punchToken
                let uaHash := hash req.userAgent
                match findPunchToken w req.userId deviceId tokenHash now with
                | none =>
                  (appendEvent w (mkEv w .BLOCKED (some .INVALID_PUNCH_TOKEN) none),
                    .blocked .INVALID_PUNCH_TOKEN)
                | some tokenRow =>
                  if (match tokenRow.userAgentHash with
                      | some h => decide (h ≠ uaHash)
                      | none => false) then
                    (appendEvent w (mkEv w .BLOCKED (some .INVALID_PUNCH_TOKEN) none),
                      .blocked .INVALID_PUNCH_TOKEN)
                  else
                    let w := stampLastSeen w tokenRow.id now
                    -- MUST #5 — strict sequencing.
                    if invalidState then
                      (appendEvent w
                        (mkEv w .BLOCKED (some .INVALID_STATE) (some tokenRow.id)),
                        .blocked .INVALID_STATE)
                    else
                      let createdId := freshEventId w
                      (appendEvent w (mkEv w .OK none (some tokenRow.id)),
                        .ok (if req.type = .CLOCK_OUT then some createdId else none))

/-- `getUTCHours()` of a millisecond timestamp. -/
def hourOfMs (ms : Int) : Int := (ms.fdiv 3600000).emod 24

/-- UTC calendar-day index of a millisecond timestamp; two timestamps have the
same `toISOString().slice(0, 10)` day key exactly when they have the same
index. -/
def dayKeyUTC (ms : Int) : Int := ms.fdiv 86400000

/-- The `verifiedLabel` helper (null and 'none' render as the em dash). -/
def verifiedLabel : Option StaffingVerificationMethod → String
  | Option.none => "—"
  | some .none => "—"
  | some .wifi => "Wi-Fi"
  | some .location => "Location"
  | some .both => "Wi-Fi + Location"

/-- Collapse consecutive duplicates, i.e. the
`filter((v, idx, arr) => idx === 0 ? true : v !== arr[idx - 1])` pattern. -/
def dedupConsec : List String → List String
  | [] => []
  | [x] => [x]
  | x :: y :: l => if y = x then dedupConsec (x :: l) else x :: dedupConsec (y :: l)

/-- A reconstructed CLOCK_IN → CLOCK_OUT segment. -/
structure Segment where
  clockInAt : Int
  clockOutAt : Int
  ms : Int
  shiftType : StaffingShiftType
  verifiedSeq : List String
  signed : Bool
  signaturePngBase64 : Option String
deriving Repr, DecidableEq

/-- Close a segment on a CLOCK_OUT event `e`, with `evs` the events collected
since the opening CLOCK_IN (inclusive of both ends). -/
def mkSegment (clockInAt : Int) (evs : List StaffingTimeEvent)
    (e : StaffingTimeEvent) : Segment :=
  { clockInAt := clockInAt
    clockOutAt := e.serverTimestamp
    ms := max 0 (e.serverTimestamp - clockInAt)
    shiftType := e.shiftType.getD
      (if 6 ≤ hourOfMs clockInAt ∧ hourOfMs clockInAt < 18 then .DAY else .NIGHT)
    verifiedSeq := dedupConsec
      (((evs.map (fun x => verifiedLabel x.verificationMethod)).filter (fun v => v ≠ "—")))
    signed := e.signedAt.isSome || e.signaturePngBase64.isSome
    signaturePngBase64 := e.signaturePngBase64 }

/-- The segment-pairing loop of `buildWeeklyDailyRows`: a CLOCK_IN (re)opens a
segment, the next CLOCK_OUT closes it; events with no open segment are
skipped; an unterminated CLOCK_IN is dropped. -/
def pairSegments (op : Option (Int × List StaffingTimeEvent)) :
    List StaffingTimeEvent → List Segment
  | [] => []
  | e :: rest =>
    if e.type = .CLOCK_IN then pairSegments (some (e.serverTimestamp, [e])) rest
    else
      match op with
      | none => pairSegments none rest
      | some (openAt, evs) =>
        let evs := evs ++ [e]
        if e.type = .CLOCK_OUT then
          mkSegment openAt evs e :: pairSegments none rest
        else pairSegments (some (openAt, evs)) rest

/-- The `raw` query of `buildWeeklyDailyRows`: the user's OK events inside the
±12h-widened window (site-filtered when a site is given), in serverTimestamp
order. -/
def weeklyRawEvents (allEvents : List StaffingTimeEvent) (userId : String)
    (siteId : Option String) (dateFrom dateTo : Int) : List StaffingTimeEvent :=
  let queryFrom := dateFrom - 12 * 60 * 60000
  let queryTo := dateTo + 12 * 60 * 60000
  sortByTs (fun e => e.serverTimestamp)
    (allEvents.filter (fun e =>
      e.userId = userId && e.status = .OK &&
        queryFrom ≤ e.serverTimestamp && e.serverTimestamp < queryTo &&
        (match siteId with
          | some s => e.siteId = some s
          | none => true)))

/-- All segments reconstructed for a weekly query. -/
def weeklySegments (allEvents : List StaffingTimeEvent) (userId : String)
    (siteId : Option String) (dateFrom dateTo : Int) : List Segment :=
  pairSegments none (weeklyRawEvents allEvents userId siteId dateFrom dateTo)

/-- One emitted day row (`shift = none` and `signed = none` render as the em
dash and JSON null respectively). -/
structure WeeklyRow where
  dayIndex : Nat
  date : Int
  shift : Option StaffingShiftType
  timeIn : Option Int
  timeOut : Option Int
  lunchMinutes : Nat
  hours : Rat
  verifiedVia : String
  signed : Option Bool
  signaturePngBase64 : Option String
deriving Repr, DecidableEq

/-- Accumulator of the per-day loop over a day's segments. -/
structure DayAccum where
  firstIn : Option Int
  lastOut : Option Int
  totalMs : Int
  hasSignature : Bool
  signaturePngBase64 : Option String
  methodSeq : List String
  shift : Option StaffingShiftType
deriving Repr, DecidableEq

/-- One iteration of the `for (const s of segs)` loop. -/
def dayAccumStep (a : DayAccum) (s : Segment) : DayAccum :=
  { firstIn :=
      match a.firstIn with
      | none => some s.clockInAt
      | some f => if s.clockInAt < f then some s.clockInAt else some f
    lastOut :=
      match a.lastOut with
      | none => some s.clockOutAt
      | some l => if l < s.clockOutAt then some s.clockOutAt else some l
    totalMs := a.totalMs + s.ms
    hasSignature := a.hasSignature || s.signed
    signaturePngBase64 :=
      if s.signed then
        match a.signaturePngBase64 with
        | none => s.signaturePngBase64
        | some x => some x
      else a.signaturePngBase64
    methodSeq := a.methodSeq ++ s.verifiedSeq
    shift :=
      match a.shift with
      | none => some s.shiftType
      | some sh => some sh }

/-- Build the row of day `idx` with key `key` from the reconstructed
segments. -/
def rowFor (segments : List Segment) (idx : Nat) (key : Int) : WeeklyRow :=
  let segs := segments.filter (fun s => dayKeyUTC s.clockInAt = key)
  let a := segs.foldl dayAccumStep
    { firstIn := none, lastOut := none, totalMs := 0, hasSignature := false,
      signaturePngBase64 := none, methodSeq := [], shift := none }
  let hasWork := 0 < a.totalMs
  let lunchMs : Int := if hasWork then 30 * 60000 else 0
  let hours : Rat := ((max 0 (a.totalMs - lunchMs) : Int) : Rat) / 3600000
  let normalizedMethods := dedupConsec a.methodSeq
  let distinct := normalizedMethods.dedup
  let verifiedVia :=
    if !hasWork then "—"
    else if distinct.length ≤ 1 then (normalizedMethods.head?).getD "—"
    else ((normalizedMethods.head?).getD "") ++ " → " ++
      ((normalizedMethods.getLast?).getD "")
  { dayIndex := idx
    date := key
    shift := if hasWork then a.shift else none
    timeIn := a.firstIn
    timeOut := a.lastOut
    lunchMinutes := if hasWork then 30 else 0
    hours := hours
    verifiedVia := verifiedVia
    signed := if hasWork then some a.hasSignature else none
    signaturePngBase64 := a.signaturePngBase64 }

/-- Totals object of the weekly result. -/
structure WeeklyTotals where
  hours : Rat
deriving Repr, DecidableEq

/-- `buildWeeklyDailyRows`: reconstruct segments from the user's OK events in
the widened window, bucket them into the 7 days starting at `dateFrom`, and
sum the 7 day rows into the totals. -/
def buildWeeklyDailyRows (allEvents : List StaffingTimeEvent) (userId : String)
    (siteId : Option String) (dateFrom dateTo : Int) :
    List WeeklyRow × WeeklyTotals :=
  let segments := weeklySegments allEvents userId siteId dateFrom dateTo
  let rows := (List.range 7).map (fun idx =>
    rowFor segments idx (dayKeyUTC (dateFrom + idx * (24 * 60 * 60000))))
  (rows, { hours := (rows.map (fun r => r.hours)).foldl (· + ·) 0 })

/-- Outcome of `POST /attendance/:shiftId/signature`. -/
inductive AttachSignatureOutcome
  | ok
  | missingShiftId
  | invalidFormat
  | tooLarge
  | notFound
deriving Repr, DecidableEq

/-- The `updateMany` where-clause of the signature route: the row must be the
caller's status-OK CLOCK_OUT event with the given id. -/
def attachSigMatches (userId shiftId : String) (e : StaffingTimeEvent) : Bool :=
  e.id = shiftId && e.userId = userId && e.type = .CLOCK_OUT && e.status = .OK

/-- JS `String.prototype.startsWith`, modelled over the character data. -/
def strStartsWith (s p : String) : Bool :=
  decide (s.data.take p.data.length = p.data)

/-- `POST /attendance/:shiftId/signature`: validate the payload, then set
`signedAt`/`signaturePngBase64` on every matching row; report not-found when
no row matched. -/
def attachSignature (w : World) (userId shiftId sig : String) (now : Int) :
    World × AttachSignatureOutcome :=
  if shiftId = "" then (w, .missingShiftId)
  else if !strStartsWith sig "data:image/png;base64," then (w, .invalidFormat)
  else if 300000 < sig.length then (w, .tooLarge)
  else
    let updated := w.events.map (fun e =>
      if attachSigMatches userId shiftId e then
        { e with signedAt := some now, signaturePngBase64 := some sig }
      else e)
    let count := w.events.countP (attachSigMatches userId shiftId)
    ({ w with events := updated }, if count = 0 then .notFound else .ok)

/-- `evalWifiAllowlist` from `staffingPunchSecurity.ts`, over the parsed
environment: operator override first, then fail-closed on an empty allowlist,
then membership of the client address. -/
def evalWifiAllowlist (disabled : Bool) (allowlist : List String)
    (ipAddress : Option String) : WifiAllowlistStatus :=
  if disabled then .DEV_BYPASS
  else if allowlist.isEmpty then .FAIL
  else
    match ipAddress with
    | none => .FAIL
    | some ip => if allowlist.contains ip then .PASS else .FAIL

theorem ceilSeconds_eq_ceil (a : Int) (h : 0 ≤ a) :
    (ceilSeconds a : Int) = ⌈(a : ℚ) / 1000⌉ := by
  obtain ⟨n, rfl⟩ := Int.eq_ofNat_of_zero_le h
  unfold ceilSeconds
  simp only [Int.toNat_natCast]
  have hdm := Nat.div_add_mod (n + 999) 1000
  have hmod : (n + 999) % 1000 < 1000 := Nat.mod_lt _ (by norm_num)
  set q := (n + 999) / 1000 with hq
  have h1 : 1000 * q ≤ n + 999 := by omega
  have h2 : n + 999 < 1000 * q + 1000 := by omega
  have hc1 : (1000 : ℚ) * (q : ℚ) ≤ (n : ℚ) + 999 := by exact_mod_cast h1
  have h3 : n ≤ 1000 * q := by omega
  have hc2 : (n : ℚ) ≤ 1000 * (q : ℚ) := by exact_mod_cast h3
  rw [eq_comm, Int.ceil_eq_iff]
  constructor
  · rw [lt_div_iff₀ (show (0 : ℚ) < 1000 by norm_num)]
    push_cast
    linarith
  · rw [div_le_iff₀ (show (0 : ℚ) < 1000 by norm_num)]
    push_cast
    linarith

theorem pruneBucket_eq_filter (cutoff : Int) :
    ∀ (l : List Int), l.Pairwise (· ≤ ·) →
      pruneBucket cutoff l = l.filter (fun x => cutoff ≤ x) := by
  intro l hl
  induction l with
  | nil => rfl
  | cons x xs ih =>
    rcases List.pairwise_cons.mp hl with ⟨hx, hxs⟩
    by_cases hcx : x < cutoff
    · have hfx : (decide (cutoff ≤ x)) = false := by
        simp [not_le.mpr hcx]
      have : pruneBucket cutoff (x :: xs) = pruneBucket cutoff xs := by
        simp [pruneBucket, List.dropWhile, hcx]
      rw [this, ih hxs, List.filter_cons, hfx]
      simp
    · have hum : (decide (cutoff ≤ x)) = true := by
        simp [not_lt.mp hcx]
      have hkeep : pruneBucket cutoff (x :: xs) = x :: xs := by
        simp [pruneBucket, List.dropWhile, hcx]
      have hall : ∀ y ∈ xs, (fun z => decide (cutoff ≤ z)) y = true := by
        intro y hy
        simp [le_trans (not_lt.mp hcx) (hx y hy)]
      rw [hkeep, List.filter_cons, hum]
      simp only [if_true]
      rw [List.filter_eq_self.mpr hall]

/-- C8: per key, `hit` first evicts timestamps older than `now - windowMs`;
it allows exactly when the remaining count is below `maxHits`; on disallow it
returns `retryAfterSeconds = ceil((oldest + windowMs - now) / 1000)`; a
limiter holding `maxHits` hits all inside the window rejects the next request
with a positive retry delay; and a request made after the window has elapsed
since all prior hits is allowed. -/
theorem rateLimiter_hit_spec (windowMs : Int) (maxHits : Nat)
    (bucket : List Int) (t : Int) (hsorted : bucket.Pairwise (· ≤ ·)) :
    pruneBucket (t - windowMs) bucket
        = bucket.filter (fun x => t - windowMs ≤ x)
      ∧ ((InMemoryRateLimiter.hit windowMs maxHits bucket t).1.allowed = true
          ↔ (bucket.filter (fun x => t - windowMs ≤ x)).length < maxHits)
      ∧ (∀ x xs,
          bucket.filter (fun y => t - windowMs ≤ y) = x :: xs →
          (InMemoryRateLimiter.hit windowMs maxHits bucket t).1.allowed = false →
          ((InMemoryRateLimiter.hit windowMs maxHits bucket t).1.retryAfterSeconds : Int)
            = ⌈((x + windowMs - t : Int) : ℚ) / 1000⌉)
      ∧ (bucket.length = maxHits → 0 < maxHits →
          (∀ x ∈ bucket, t - windowMs < x) →
          (InMemoryRateLimiter.hit windowMs maxHits bucket t).1.allowed = false
            ∧ 1 ≤ (InMemoryRateLimiter.hit windowMs maxHits bucket t).1.retryAfterSeconds)
      ∧ ((∀ x ∈ bucket, x < t - windowMs) → 0 < maxHits →
          (InMemoryRateLimiter.hit windowMs maxHits bucket t).1.allowed = true) := by
  have hpr := pruneBucket_eq_filter (t - windowMs) bucket hsorted
  have hhit : InMemoryRateLimiter.hit windowMs maxHits bucket t =
      (if maxHits ≤ (bucket.filter (fun x => t - windowMs ≤ x)).length then
        ({ allowed := false, remaining := 0,
            retryAfterSeconds := ceilSeconds
              (max 0 ((bucket.filter (fun x => t - windowMs ≤ x)).head?.getD t
                + windowMs - t)) },
          bucket.filter (fun x => t - windowMs ≤ x))
      else
        ({ allowed := true,
            remaining := maxHits
              - ((bucket.filter (fun x => t - windowMs ≤ x)).length + 1),
            retryAfterSeconds := 0 },
          bucket.filter (fun x => t - windowMs ≤ x) ++ [t])) := by
    simp only [InMemoryRateLimiter.hit]
    rw [hpr]
  refine ⟨hpr, ?_, ?_, ?_, ?_⟩
  · rw [hhit]
    by_cases hlen : maxHits ≤ (bucket.filter (fun x => t - windowMs ≤ x)).length
    · rw [if_pos hlen]
      exact iff_of_false (by simp) (by omega)
    · rw [if_neg hlen]
      exact iff_of_true rfl (by omega)
  · intro x xs hfil hdis
    rw [hhit, hfil] at hdis ⊢
    by_cases hlen : maxHits ≤ (x :: xs).length
    · rw [if_pos hlen]
      have hx : t - windowMs ≤ x := by
        have hmem : x ∈ List.filter (fun y => decide (t - windowMs ≤ y)) bucket := by
          rw [hfil]; exact List.mem_cons_self x xs
        simpa using List.of_mem_filter hmem
      have hnn : (0 : Int) ≤ x + windowMs - t := by omega
      have hmax : max 0 (x + windowMs - t) = x + windowMs - t := max_eq_right hnn
      simp only [List.head?, Option.getD, hmax]
      exact ceilSeconds_eq_ceil _ hnn
    · rw [if_neg hlen] at hdis
      exact absurd hdis (by simp)
  · intro hlen hpos hwin
    have hall : ∀ x ∈ bucket, (fun y => decide (t - windowMs ≤ y)) x = true := by
      intro x hx
      simp [le_of_lt (hwin x hx)]
    have hfil : bucket.filter (fun y => t - windowMs ≤ y) = bucket :=
      List.filter_eq_self.mpr hall
    rw [hhit, hfil, hlen]
    rw [if_pos (le_refl maxHits)]
    refine ⟨rfl, ?_⟩
    cases bucket with
    | nil => simp at hlen; omega
    | cons x xs =>
      have hx : t - windowMs < x := hwin x (List.mem_cons_self x xs)
      have hnn : (1 : Int) ≤ x + windowMs - t := by omega
      have hmax : max 0 (x + windowMs - t) = x + windowMs - t :=
        max_eq_right (by omega)
      simp only [List.head?, Option.getD, hmax]
      unfold ceilSeconds
      omega
  · intro hold hpos
    have hfil : bucket.filter (fun y => t - windowMs ≤ y) = [] := by
      rw [List.filter_eq_nil_iff]
      intro x hx
      simp [not_le.mpr (hold x hx)]
    rw [hhit, hfil]
    rw [if_neg (by simp only [List.length_nil]; omega)]

/-- Witness for C8 at a concrete limiter: two hits fill a 2-hit window, the
third request inside the window is rejected with a positive retry delay. -/
theorem rateLimiter_hit_spec_witness :
    (InMemoryRateLimiter.hit 60000 2 [5, 10] 100).1.allowed = false
      ∧ 1 ≤ (InMemoryRateLimiter.hit 60000 2 [5, 10] 100).1.retryAfterSeconds :=
  (rateLimiter_hit_spec 60000 2 [5, 10] 100 (by decide)).2.2.2.1
    (by decide) (by decide) (by decide)

/-- Correspondence between the replay accumulator and the table state. -/
def clockInv (a : ClockAccum) (s : ClockState) : Prop :=
  (a.clockedIn = true ↔ (s = .IN ∨ s = .ON_LUNCH))
    ∧ (a.onLunch = true ↔ s = .ON_LUNCH)
    ∧ (s = .ON_LUNCH → a.lunchStartAt ≠ none)

theorem clockInv_step (a : ClockAccum) (s : ClockState) (e : ClockEvent)
    (hinv : clockInv a s) (hleg : legalStep s e.type = true) :
    clockInv (clockFoldStep a e) (tableStep s e.type) := by
  obtain ⟨h1, h2, h3⟩ := hinv
  cases s <;> cases he : e.type <;>
    simp [legalStep, he] at hleg <;>
    simp_all [clockInv, clockFoldStep, tableStep, he]

theorem clockInv_fold (l : List ClockEvent) :
    ∀ (a : ClockAccum) (s : ClockState), clockInv a s →
      legalTrace s (l.map (fun e => e.type)) = true →
      clockInv (l.foldl clockFoldStep a)
        (l.foldl (fun s e => tableStep s e.type) s) := by
  induction l with
  | nil => intro a s hinv _; exact hinv
  | cons e rest ih =>
    intro a s hinv hleg
    simp only [List.map_cons, legalTrace, Bool.and_eq_true] at hleg
    exact ih _ _ (clockInv_step a s e hinv hleg.1) hleg.2

/-- C3 counterexample: a clock-in followed by a lunch started 30 minutes
before the read replays to IN (the lunch auto-expired), while folding the
transition table over the same OK events yields ON_LUNCH — so the replayed
state does not always equal the table fold. -/
theorem deriveClockState_ne_tableFold :
    derivedAbs (deriveClockState
        [⟨.CLOCK_IN, .OK, 0⟩, ⟨.LUNCH_START, .OK, 1000⟩] 1801000)
      ≠ specClockState [⟨.CLOCK_IN, .OK, 0⟩, ⟨.LUNCH_START, .OK, 1000⟩] := by
  decide

/-- C3 (amended): BLOCKED events never influence the derived state, and for
every event sequence whose OK events form a legal trace of the transition
table, the replayed state equals the table fold — except that a final
ON_LUNCH is reported as IN once 30 minutes have elapsed since its
LUNCH_START (the read-time lunch auto-expiry). -/
theorem deriveClockState_eq_tableFold (events : List ClockEvent) (now : Int)
    (l1 l2 : List ClockEvent) (e : ClockEvent) :
    (legalTrace .OUT ((okSortedEvents events).map (fun x => x.type)) = true →
      derivedAbs (deriveClockState events now) =
        (if specClockState events = .ON_LUNCH ∧ lunchExpired events now
          then .IN else specClockState events))
      ∧ (e.status = .BLOCKED →
          deriveClockState (l1 ++ e :: l2) now = deriveClockState (l1 ++ l2) now
            ∧ specClockState (l1 ++ e :: l2) = specClockState (l1 ++ l2)) := by
  constructor
  · intro hleg
    have hinv : clockInv (clockFold events) (specClockState events) := by
      have h0 : clockInv
          { clockedIn := false, onLunch := false, lunchStartAt := none } .OUT := by
        constructor
        · simp
        constructor
        · simp
        · intro h; cases h
      exact clockInv_fold (okSortedEvents events) _ _ h0 hleg
    obtain ⟨h1, h2, h3⟩ := hinv
    cases hs : specClockState events with
    | OUT =>
      rw [hs] at h1 h2
      have hci : (clockFold events).clockedIn = false := by
        cases hcl : (clockFold events).clockedIn
        · rfl
        · exact absurd (h1.mp hcl) (by simp)
      simp [deriveClockState, derivedAbs, hci]
    | IN =>
      rw [hs] at h1 h2
      have hci : (clockFold events).clockedIn = true := h1.mpr (Or.inl rfl)
      have hol : (clockFold events).onLunch = false := by
        cases hcl : (clockFold events).onLunch
        · rfl
        · exact absurd (h2.mp hcl) (by simp)
      simp [deriveClockState, derivedAbs, hci, hol]
    | ON_LUNCH =>
      rw [hs] at h1 h2 h3
      have hci : (clockFold events).clockedIn = true := h1.mpr (Or.inr rfl)
      have hol : (clockFold events).onLunch = true := h2.mpr rfl
      obtain ⟨t0, ht0⟩ : ∃ t0, (clockFold events).lunchStartAt = some t0 := by
        cases hls : (clockFold events).lunchStartAt
        · exact absurd hls (h3 rfl)
        · exact ⟨_, rfl⟩
      by_cases hexp : now - t0 ≥ 30 * 60 * 1000
      · have : lunchExpired events now := by
          unfold lunchExpired; rw [ht0]; exact hexp
        (simp [deriveClockState, derivedAbs, hci, hol, ht0, hexp, this]; omega)
      · have : ¬ lunchExpired events now := by
          unfold lunchExpired; rw [ht0]; exact hexp
        (simp [deriveClockState, derivedAbs, hci, hol, ht0, hexp, this]; omega)
  · intro hblocked
    have hfilter : (l1 ++ e :: l2).filter (fun x => x.status = .OK)
        = (l1 ++ l2).filter (fun x => x.status = .OK) := by
      rw [List.filter_append, List.filter_append, List.filter_cons]
      have : (decide (e.status = StaffingEventStatus.OK)) = false := by
        rw [hblocked]; decide
      simp [this]
    have hok : okSortedEvents (l1 ++ e :: l2) = okSortedEvents (l1 ++ l2) := by
      unfold okSortedEvents
      rw [hfilter]
    constructor
    · unfold deriveClockState clockFold
      rw [hok]
    · unfold specClockState
      rw [hok]

/-- Witness for C3 at a concrete legal trace: clock-in then lunch-start,
read two minutes later — the replay reports ON_LUNCH, matching the table
fold (no expiry yet). -/
theorem deriveClockState_eq_tableFold_witness :
    derivedAbs (deriveClockState
        [⟨.CLOCK_IN, .OK, 0⟩, ⟨.LUNCH_START, .OK, 1000⟩] 121000)
      = (if specClockState [⟨.CLOCK_IN, .OK, 0⟩, ⟨.LUNCH_START, .OK, 1000⟩]
            = .ON_LUNCH
          ∧ lunchExpired [⟨.CLOCK_IN, .OK, 0⟩, ⟨.LUNCH_START, .OK, 1000⟩] 121000
          then .IN
          else specClockState [⟨.CLOCK_IN, .OK, 0⟩, ⟨.LUNCH_START, .OK, 1000⟩]) :=
  (deriveClockState_eq_tableFold
      [⟨.CLOCK_IN, .OK, 0⟩, ⟨.LUNCH_START, .OK, 1000⟩] 121000 [] [] ⟨.CLOCK_IN, .OK, 0⟩).1
    (by decide)

theorem foldl_add_rat (l : List Rat) : ∀ (init : Rat),
    l.foldl (· + ·) init = init + l.sum := by
  induction l with
  | nil => intro init; simp
  | cons x xs ih =>
    intro init
    simp only [List.foldl_cons, List.sum_cons, ih]
    ring

theorem dayAccum_totalMs (segs : List Segment) : ∀ (a : DayAccum),
    (segs.foldl dayAccumStep a).totalMs
      = a.totalMs + (segs.map (fun s => s.ms)).sum := by
  induction segs with
  | nil => intro a; simp
  | cons s rest ih =>
    intro a
    simp only [List.foldl_cons, List.map_cons, List.sum_cons, ih, dayAccumStep]
    ring

theorem pairSegments_ms_nonneg :
    ∀ (l : List StaffingTimeEvent) (op : Option (Int × List StaffingTimeEvent)),
      ∀ s ∈ pairSegments op l, 0 ≤ s.ms := by
  intro l
  induction l with
  | nil => intro op s hs; simp [pairSegments] at hs
  | cons e rest ih =>
    intro op s hs
    unfold pairSegments at hs
    by_cases hin : e.type = .CLOCK_IN
    · rw [if_pos hin] at hs
      exact ih _ s hs
    · rw [if_neg hin] at hs
      cases op with
      | none => exact ih none s hs
      | some p =>
        obtain ⟨openAt, evs⟩ := p
        by_cases hout : e.type = .CLOCK_OUT
        · simp only [hout, if_true, reduceIte] at hs
          rcases List.mem_cons.mp hs with hs | hs
          · rw [hs]
            exact le_max_left 0 _
          · exact ih none s hs
        · simp only [hout, reduceIte] at hs
          exact ih _ s hs

/-- C4: the weekly reconstruction emits exactly 7 day rows; the totals row
sums the 7 day rows' hours; and a day with no reconstructed segments shows
the em dash for shift and verification, null for signed, 0 hours, and no
in/out times. -/
theorem buildWeeklyDailyRows_shape (allEvents : List StaffingTimeEvent)
    (userId : String) (siteId : Option String) (dateFrom dateTo : Int) :
    (buildWeeklyDailyRows allEvents userId siteId dateFrom dateTo).1.length = 7
      ∧ (buildWeeklyDailyRows allEvents userId siteId dateFrom dateTo).2.hours
        = ((buildWeeklyDailyRows allEvents userId siteId dateFrom dateTo).1.map
            (fun r => r.hours)).sum
      ∧ (∀ r ∈ (buildWeeklyDailyRows allEvents userId siteId dateFrom dateTo).1,
          (weeklySegments allEvents userId siteId dateFrom dateTo).filter
              (fun s => dayKeyUTC s.clockInAt = r.date) = [] →
          r.shift = none ∧ r.verifiedVia = "—" ∧ r.signed = none
            ∧ r.hours = 0 ∧ r.timeIn = none ∧ r.timeOut = none) := by
  refine ⟨?_, ?_, ?_⟩
  · simp [buildWeeklyDailyRows]
  · simp only [buildWeeklyDailyRows]
    rw [foldl_add_rat]
    simp
  · intro r hr hempty
    simp only [buildWeeklyDailyRows, List.mem_map] at hr
    obtain ⟨idx, _, rfl⟩ := hr
    have hdate : (rowFor (weeklySegments allEvents userId siteId dateFrom dateTo)
        idx (dayKeyUTC (dateFrom + idx * (24 * 60 * 60000)))).date
        = dayKeyUTC (dateFrom + idx * (24 * 60 * 60000)) := rfl
    rw [hdate] at hempty
    simp only [rowFor, hempty]
    norm_num

/-- Witness for C4 on an empty event log: all three conjuncts at a concrete
week, the per-day conjunct applied to the first (empty) row. -/
theorem buildWeeklyDailyRows_shape_witness :
    (buildWeeklyDailyRows [] "u" none 0 604800000).1.length = 7
      ∧ ((rowFor (weeklySegments [] "u" none 0 604800000) 0 0).shift = none
          ∧ (rowFor (weeklySegments [] "u" none 0 604800000) 0 0).verifiedVia = "—"
          ∧ (rowFor (weeklySegments [] "u" none 0 604800000) 0 0).signed = none
          ∧ (rowFor (weeklySegments [] "u" none 0 604800000) 0 0).hours = 0
          ∧ (rowFor (weeklySegments [] "u" none 0 604800000) 0 0).timeIn = none
          ∧ (rowFor (weeklySegments [] "u" none 0 604800000) 0 0).timeOut = none) := by
  have h := buildWeeklyDailyRows_shape [] "u" none 0 604800000
  refine ⟨h.1, h.2.2 _ ?_ ?_⟩
  · simp only [buildWeeklyDailyRows]
    refine List.mem_map.mpr ⟨0, ?_, ?_⟩
    · simp
    · rfl
  · rfl

/-- Event-row fixture for concrete scenarios: a status-OK, Wi-Fi-verified
event with no geo payload and no stored shift classification. -/
def mkOkEvent (i : String) (ty : StaffingEventType) (ts : Int) : StaffingTimeEvent :=
  { id := i, userId := "u", siteId := some "DTX", agency := .PROLOGISTIX,
    type := ty, status := .OK, reason := none, serverTimestamp := ts,
    createdAt := ts, clientReportedTimestamp := none, clientTimeDriftMs := none,
    clientTimeDriftFlag := none, geoLat := none, geoLng := none,
    accuracyMeters := none, distanceMeters := none, inRange := false,
    wifiVerified := true, locationVerified := false,
    verificationMethod := some .wifi, userAgent := "ua", notes := none,
    ipAddress := some "1.2.3.4", wifiAllowlistStatus := some .PASS,
    deviceId := some "d", idempotencyKey := none, punchTokenId := none,
    signedAt := none, signaturePngBase64 := none, shiftType := none }

theorem rowFor_hours_lunch (segments : List Segment) (idx : Nat) (key : Int)
    (tot : Int)
    (htot : ((segments.filter (fun s => dayKeyUTC s.clockInAt = key)).map
        (fun s => s.ms)).sum = tot)
    (hms : ∀ s ∈ segments, 0 ≤ s.ms) :
    ((rowFor segments idx key).lunchMinutes = if 0 < tot then 30 else 0)
      ∧ ((rowFor segments idx key).hours
          = if 0 < tot
            then ((max 0 (tot - 30 * 60000) : Int) : ℚ) / 3600000
            else 0) := by
  have haccum := dayAccum_totalMs
    (segments.filter (fun s => dayKeyUTC s.clockInAt = key))
    { firstIn := none, lastOut := none, totalMs := 0, hasSignature := false,
      signaturePngBase64 := none, methodSeq := [], shift := none }
  rw [htot] at haccum
  have htot' : ((segments.filter (fun s => dayKeyUTC s.clockInAt = key)).foldl
      dayAccumStep
      { firstIn := none, lastOut := none, totalMs := 0, hasSignature := false,
        signaturePngBase64 := none, methodSeq := [], shift := none }).totalMs
      = tot := by
    rw [haccum]; ring
  have hnn : 0 ≤ tot := by
    rw [← htot]
    apply List.sum_nonneg
    intro x hx
    rcases List.mem_map.mp hx with ⟨s, hs, rfl⟩
    exact hms s (List.mem_filter.mp hs).1
  by_cases hpos : 0 < tot
  · have hd : decide (0 < tot) = true := decide_eq_true hpos
    simp only [rowFor, htot', hd, if_pos hpos, Bool.not_true, if_true]
    exact ⟨trivial, trivial⟩
  · have hz : tot = 0 := by omega
    subst hz
    simp only [rowFor, htot']
    norm_num

/-- C6: in every weekly row, a day with any completed work is charged exactly
one flat 30-minute lunch, with `hours = max(0, totalMs - 30min) / 3,600,000`
over the day's summed segment durations; concretely, a day with two separate
clock-in/out segments (08:00–10:00 and 11:00–13:00) loses only 30 minutes
total, yielding 3.5 hours. -/
theorem weekly_lunch_once_per_day (allEvents : List StaffingTimeEvent)
    (userId : String) (siteId : Option String) (dateFrom dateTo : Int) :
    (∀ r ∈ (buildWeeklyDailyRows allEvents userId siteId dateFrom dateTo).1,
      0 < (((weeklySegments allEvents userId siteId dateFrom dateTo).filter
          (fun s => dayKeyUTC s.clockInAt = r.date)).map (fun s => s.ms)).sum →
      r.lunchMinutes = 30
        ∧ r.hours = ((max 0
            ((((weeklySegments allEvents userId siteId dateFrom dateTo).filter
              (fun s => dayKeyUTC s.clockInAt = r.date)).map (fun s => s.ms)).sum
              - 30 * 60000) : Int) : ℚ) / 3600000)
      ∧ (buildWeeklyDailyRows
            [mkOkEvent "a" .CLOCK_IN 28800000, mkOkEvent "b" .CLOCK_OUT 36000000,
              mkOkEvent "c" .CLOCK_IN 39600000, mkOkEvent "d" .CLOCK_OUT 46800000]
            "u" none 0 604800000).1.head?
          = some (rowFor (weeklySegments
              [mkOkEvent "a" .CLOCK_IN 28800000, mkOkEvent "b" .CLOCK_OUT 36000000,
                mkOkEvent "c" .CLOCK_IN 39600000, mkOkEvent "d" .CLOCK_OUT 46800000]
              "u" none 0 604800000) 0 0)
      ∧ (rowFor (weeklySegments
            [mkOkEvent "a" .CLOCK_IN 28800000, mkOkEvent "b" .CLOCK_OUT 36000000,
              mkOkEvent "c" .CLOCK_IN 39600000, mkOkEvent "d" .CLOCK_OUT 46800000]
            "u" none 0 604800000) 0 0).lunchMinutes = 30
      ∧ (rowFor (weeklySegments
            [mkOkEvent "a" .CLOCK_IN 28800000, mkOkEvent "b" .CLOCK_OUT 36000000,
              mkOkEvent "c" .CLOCK_IN 39600000, mkOkEvent "d" .CLOCK_OUT 46800000]
            "u" none 0 604800000) 0 0).hours = 7 / 2 := by
  refine ⟨?_, ?_, ?_, ?_⟩
  · intro r hr hpos
    simp only [buildWeeklyDailyRows, List.mem_map] at hr
    obtain ⟨idx, _, rfl⟩ := hr
    have hdate : (rowFor (weeklySegments allEvents userId siteId dateFrom dateTo)
        idx (dayKeyUTC (dateFrom + idx * (24 * 60 * 60000)))).date
        = dayKeyUTC (dateFrom + idx * (24 * 60 * 60000)) := rfl
    simp only [hdate] at hpos ⊢
    have h := rowFor_hours_lunch
      (weeklySegments allEvents userId siteId dateFrom dateTo) idx
      (dayKeyUTC (dateFrom + idx * (24 * 60 * 60000))) _ rfl
      (fun s hs => pairSegments_ms_nonneg _ none s hs)
    rw [if_pos hpos, if_pos hpos] at h
    exact ⟨h.1, h.2⟩
  · rfl
  · have h := rowFor_hours_lunch (weeklySegments
        [mkOkEvent "a" .CLOCK_IN 28800000, mkOkEvent "b" .CLOCK_OUT 36000000,
          mkOkEvent "c" .CLOCK_IN 39600000, mkOkEvent "d" .CLOCK_OUT 46800000]
        "u" none 0 604800000) 0 0 14400000 (by decide)
      (fun s hs => pairSegments_ms_nonneg _ none s hs)
    rw [if_pos (by omega)] at h
    exact h.1
  · have h := rowFor_hours_lunch (weeklySegments
        [mkOkEvent "a" .CLOCK_IN 28800000, mkOkEvent "b" .CLOCK_OUT 36000000,
          mkOkEvent "c" .CLOCK_IN 39600000, mkOkEvent "d" .CLOCK_OUT 46800000]
        "u" none 0 604800000) 0 0 14400000 (by decide)
      (fun s hs => pairSegments_ms_nonneg _ none s hs)
    rw [if_pos (by omega)] at h
    rw [h.2]
    norm_num

/-- Witness for C6 applying the per-row clause at the concrete two-segment
day: the row's lunch deduction is the single flat 30 minutes. -/
theorem weekly_lunch_once_per_day_witness :
    (rowFor (weeklySegments
        [mkOkEvent "a" .CLOCK_IN 28800000, mkOkEvent "b" .CLOCK_OUT 36000000,
          mkOkEvent "c" .CLOCK_IN 39600000, mkOkEvent "d" .CLOCK_OUT 46800000]
        "u" none 0 604800000) 0 0).lunchMinutes = 30 := by
  have h := (weekly_lunch_once_per_day
      [mkOkEvent "a" .CLOCK_IN 28800000, mkOkEvent "b" .CLOCK_OUT 36000000,
        mkOkEvent "c" .CLOCK_IN 39600000, mkOkEvent "d" .CLOCK_OUT 46800000]
      "u" none 0 604800000).1
  have hmem : rowFor (weeklySegments
      [mkOkEvent "a" .CLOCK_IN 28800000, mkOkEvent "b" .CLOCK_OUT 36000000,
        mkOkEvent "c" .CLOCK_IN 39600000, mkOkEvent "d" .CLOCK_OUT 46800000]
      "u" none 0 604800000) 0 0 ∈ (buildWeeklyDailyRows
      [mkOkEvent "a" .CLOCK_IN 28800000, mkOkEvent "b" .CLOCK_OUT 36000000,
        mkOkEvent "c" .CLOCK_IN 39600000, mkOkEvent "d" .CLOCK_OUT 46800000]
      "u" none 0 604800000).1 := by
    simp only [buildWeeklyDailyRows]
    exact List.mem_map.mpr ⟨0, by simp, rfl⟩
  exact (h _ hmem (by decide)).1

/-- C7 counterexample: a worker clocking in at 18:00 UTC and out at 02:30 the
next day gets one NIGHT segment on the clock-in day — but with 8.00 hours
(8.5h worked minus the 30-minute lunch), not the claimed 7.50. -/
theorem weekly_night_shift_hours_counterexample :
    (buildWeeklyDailyRows
        [mkOkEvent "a" .CLOCK_IN 64800000, mkOkEvent "b" .CLOCK_OUT 95400000]
        "u" none 0 604800000).1.head?
      = some (rowFor (weeklySegments
          [mkOkEvent "a" .CLOCK_IN 64800000, mkOkEvent "b" .CLOCK_OUT 95400000]
          "u" none 0 604800000) 0 0)
    ∧ (rowFor (weeklySegments
        [mkOkEvent "a" .CLOCK_IN 64800000, mkOkEvent "b" .CLOCK_OUT 95400000]
        "u" none 0 604800000) 0 0).shift = some .NIGHT
    ∧ (rowFor (weeklySegments
        [mkOkEvent "a" .CLOCK_IN 64800000, mkOkEvent "b" .CLOCK_OUT 95400000]
        "u" none 0 604800000) 0 0).hours = 8
    ∧ ¬ (rowFor (weeklySegments
        [mkOkEvent "a" .CLOCK_IN 64800000, mkOkEvent "b" .CLOCK_OUT 95400000]
        "u" none 0 604800000) 0 0).hours = 15 / 2 := by
  have h := rowFor_hours_lunch (weeklySegments
      [mkOkEvent "a" .CLOCK_IN 64800000, mkOkEvent "b" .CLOCK_OUT 95400000]
      "u" none 0 604800000) 0 0 30600000 (by decide)
    (fun s hs => pairSegments_ms_nonneg _ none s hs)
  rw [if_pos (by omega), if_pos (by omega)] at h
  have h8 : (rowFor (weeklySegments
      [mkOkEvent "a" .CLOCK_IN 64800000, mkOkEvent "b" .CLOCK_OUT 95400000]
      "u" none 0 604800000) 0 0).hours = 8 := by
    rw [h.2]
    norm_num
  refine ⟨rfl, by decide, h8, ?_⟩
  rw [h8]
  norm_num

/-- C7 (amended): a reconstructed segment with no stored classification is
DAY exactly when the clock-in UTC hour lies in 06:00–17:59 and NIGHT
otherwise (a stored classification wins); every row's hours are computed from
exactly the segments whose clock-in falls on that row's UTC calendar day; and
the 18:00 → 02:30 worker gets one NIGHT segment attributed to the clock-in
day with 8.00 hours after the 30-minute lunch deduction (not 7.50). -/
theorem weekly_segment_classification (allEvents : List StaffingTimeEvent)
    (userId : String) (siteId : Option String) (dateFrom dateTo : Int) :
    (∀ (clockInAt : Int) (evs : List StaffingTimeEvent) (e : StaffingTimeEvent),
      (e.shiftType = none →
        ((mkSegment clockInAt evs e).shiftType = .DAY
          ↔ (6 ≤ hourOfMs clockInAt ∧ hourOfMs clockInAt < 18)))
      ∧ (∀ st, e.shiftType = some st → (mkSegment clockInAt evs e).shiftType = st))
    ∧ (∀ r ∈ (buildWeeklyDailyRows allEvents userId siteId dateFrom dateTo).1,
        r.hours = (if 0 < (((weeklySegments allEvents userId siteId dateFrom
              dateTo).filter (fun s => dayKeyUTC s.clockInAt = r.date)).map
              (fun s => s.ms)).sum
          then ((max 0 ((((weeklySegments allEvents userId siteId dateFrom
              dateTo).filter (fun s => dayKeyUTC s.clockInAt = r.date)).map
              (fun s => s.ms)).sum - 30 * 60000) : Int) : ℚ) / 3600000
          else 0))
    ∧ (rowFor (weeklySegments
        [mkOkEvent "a" .CLOCK_IN 64800000, mkOkEvent "b" .CLOCK_OUT 95400000]
        "u" none 0 604800000) 0 0).shift = some .NIGHT
    ∧ (rowFor (weeklySegments
        [mkOkEvent "a" .CLOCK_IN 64800000, mkOkEvent "b" .CLOCK_OUT 95400000]
        "u" none 0 604800000) 0 0).hours = 8
    ∧ (buildWeeklyDailyRows
        [mkOkEvent "a" .CLOCK_IN 64800000, mkOkEvent "b" .CLOCK_OUT 95400000]
        "u" none 0 604800000).1.get? 1
      = some (rowFor (weeklySegments
          [mkOkEvent "a" .CLOCK_IN 64800000, mkOkEvent "b" .CLOCK_OUT 95400000]
          "u" none 0 604800000) 1 1)
    ∧ (rowFor (weeklySegments
        [mkOkEvent "a" .CLOCK_IN 64800000, mkOkEvent "b" .CLOCK_OUT 95400000]
        "u" none 0 604800000) 1 1).hours = 0 := by
  refine ⟨?_, ?_, by decide, ?_, by rfl, ?_⟩
  · intro clockInAt evs e
    constructor
    · intro hnone
      simp only [mkSegment, hnone, Option.getD]
      split_ifs with hc
      · exact iff_of_true rfl hc
      · exact iff_of_false (by simp) hc
    · intro st hst
      simp only [mkSegment, hst, Option.getD]
  · intro r hr
    simp only [buildWeeklyDailyRows, List.mem_map] at hr
    obtain ⟨idx, _, rfl⟩ := hr
    have hdate : (rowFor (weeklySegments allEvents userId siteId dateFrom dateTo)
        idx (dayKeyUTC (dateFrom + idx * (24 * 60 * 60000)))).date
        = dayKeyUTC (dateFrom + idx * (24 * 60 * 60000)) := rfl
    simp only [hdate]
    exact (rowFor_hours_lunch
      (weeklySegments allEvents userId siteId dateFrom dateTo) idx
      (dayKeyUTC (dateFrom + idx * (24 * 60 * 60000))) _ rfl
      (fun s hs => pairSegments_ms_nonneg _ none s hs)).2
  · have h := rowFor_hours_lunch (weeklySegments
        [mkOkEvent "a" .CLOCK_IN 64800000, mkOkEvent "b" .CLOCK_OUT 95400000]
        "u" none 0 604800000) 0 0 30600000 (by decide)
      (fun s hs => pairSegments_ms_nonneg _ none s hs)
    rw [if_pos (by omega), if_pos (by omega)] at h
    rw [h.2]
    norm_num
  · have h := rowFor_hours_lunch (weeklySegments
        [mkOkEvent "a" .CLOCK_IN 64800000, mkOkEvent "b" .CLOCK_OUT 95400000]
        "u" none 0 604800000) 1 1 0 (by decide)
      (fun s hs => pairSegments_ms_nonneg _ none s hs)
    rw [if_neg (by omega), if_neg (by omega)] at h
    exact h.2

/-- Witness for C7 applying the derived classification at the concrete 18:00
clock-in: the segment is not DAY. -/
theorem weekly_segment_classification_witness :
    ¬ (mkSegment 64800000 [] (mkOkEvent "x" .CLOCK_OUT 95400000)).shiftType
      = .DAY := by
  have h := ((weekly_segment_classification [] "u" none 0 604800000).1
    64800000 [] (mkOkEvent "x" .CLOCK_OUT 95400000)).1 rfl
  intro hd
  have hc := h.mp hd
  have h18 : hourOfMs 64800000 = 18 := by decide
  omega

/-- All event columns except the signature pair (`signedAt`,
`signaturePngBase64`) agree. -/
def sameExceptSignature (e e' : StaffingTimeEvent) : Prop :=
  e'.id = e.id ∧ e'.userId = e.userId ∧ e'.siteId = e.siteId
    ∧ e'.agency = e.agency ∧ e'.type = e.type ∧ e'.status = e.status
    ∧ e'.reason = e.reason ∧ e'.serverTimestamp = e.serverTimestamp
    ∧ e'.createdAt = e.createdAt
    ∧ e'.clientReportedTimestamp = e.clientReportedTimestamp
    ∧ e'.clientTimeDriftMs = e.clientTimeDriftMs
    ∧ e'.clientTimeDriftFlag = e.clientTimeDriftFlag
    ∧ e'.geoLat = e.geoLat ∧ e'.geoLng = e.geoLng
    ∧ e'.accuracyMeters = e.accuracyMeters
    ∧ e'.distanceMeters = e.distanceMeters ∧ e'.inRange = e.inRange
    ∧ e'.wifiVerified = e.wifiVerified
    ∧ e'.locationVerified = e.locationVerified
    ∧ e'.verificationMethod = e.verificationMethod
    ∧ e'.userAgent = e.userAgent ∧ e'.notes = e.notes
    ∧ e'.ipAddress = e.ipAddress
    ∧ e'.wifiAllowlistStatus = e.wifiAllowlistStatus
    ∧ e'.deviceId = e.deviceId ∧ e'.idempotencyKey = e.idempotencyKey
    ∧ e'.punchTokenId = e.punchTokenId ∧ e'.shiftType = e.shiftType

theorem sameExceptSignature_refl (e : StaffingTimeEvent) :
    sameExceptSignature e e := by
  unfold sameExceptSignature
  refine ⟨rfl, rfl, rfl, rfl, rfl, rfl, rfl, rfl, rfl, rfl, rfl, rfl, rfl, rfl,
    rfl, rfl, rfl, rfl, rfl, rfl, rfl, rfl, rfl, rfl, rfl, rfl, rfl, rfl⟩

theorem sameExceptSignature_update (e : StaffingTimeEvent) (t : Int) (s : String) :
    sameExceptSignature e
      { e with signedAt := some t, signaturePngBase64 := some s } := by
  unfold sameExceptSignature
  refine ⟨rfl, rfl, rfl, rfl, rfl, rfl, rfl, rfl, rfl, rfl, rfl, rfl, rfl, rfl,
    rfl, rfl, rfl, rfl, rfl, rfl, rfl, rfl, rfl, rfl, rfl, rfl, rfl, rfl⟩

/-- An already-signed status-OK CLOCK_OUT row. -/
def signedClockOutEvent : StaffingTimeEvent :=
  { mkOkEvent "e1" .CLOCK_OUT 0 with
    signedAt := some 5,
    signaturePngBase64 := some "data:image/png;base64,AAAA" }

/-- A store holding only the already-signed CLOCK_OUT row. -/
def signedWorld : World :=
  { events := [signedClockOutEvent], tokens := [], nextEventId := 1,
    userBuckets := fun _ => [], ipBuckets := fun _ => [] }

set_option maxRecDepth 10000 in
/-- C9 counterexample: attaching a signature to an event that already carries
one succeeds and overwrites the signature pair — the route's where-clause
never requires the row to lack a prior signature. -/
theorem attachSignature_overwrites_counterexample :
    (attachSignature signedWorld "u" "e1" "data:image/png;base64,BBBB" 100).2
        = .ok
      ∧ signedClockOutEvent.signedAt = some 5
      ∧ ((attachSignature signedWorld "u" "e1" "data:image/png;base64,BBBB"
            100).1.events.map (fun e => e.signedAt)) = [some 100] := by
  decide

set_option maxRecDepth 8000 in
theorem submitPunch_events_shape (hash : String → String)
    (dist : GeoPoint → Rat) (profile : Option ContractorProfile)
    (wifi : WifiAllowlistStatus) (ip : Option String) (req : SubmitRequest)
    (now : Int) (w : World) :
    (submitPunch hash dist profile wifi ip req now w).1.events = w.events
      ∨ ∃ ev, (submitPunch hash dist profile wifi ip req now w).1.events
          = w.events ++ [ev] := by
  unfold submitPunch
  cases profile with
  | none => left; rfl
  | some p =>
    by_cases he : eligibleProfile (some p) = true
    · simp only [he, Bool.not_true, Bool.false_eq_true, if_false]
      split
      · right; exact ⟨_, rfl⟩
      · split
        · right; exact ⟨_, rfl⟩
        · split
          · right; exact ⟨_, rfl⟩
          · split
            · right; exact ⟨_, rfl⟩
            · split
              · right; exact ⟨_, rfl⟩
              · split
                · right; exact ⟨_, rfl⟩
                · split
                  · right; exact ⟨_, rfl⟩
                  · split
                    · right; exact ⟨_, rfl⟩
                    · split
                      · right; exact ⟨_, rfl⟩
                      · right; exact ⟨_, rfl⟩
    · have he' : eligibleProfile (some p) = false := by
        cases h : eligibleProfile (some p)
        · rfl
        · exact absurd h he
      simp only [he', Bool.not_false, if_true]
      left; trivial

theorem submitPunch_preserves_events (hash : String → String)
    (dist : GeoPoint → Rat) (profile : Option ContractorProfile)
    (wifi : WifiAllowlistStatus) (ip : Option String) (req : SubmitRequest)
    (now : Int) (w : World) :
    (submitPunch hash dist profile wifi ip req now w).1.events.take
      w.events.length = w.events := by
  rcases submitPunch_events_shape hash dist profile wifi ip req now w with h | ⟨ev, h⟩
  · rw [h, List.take_length]
  · rw [h, List.take_left]

/-- C9 (amended): `attachSignature` succeeds exactly when the payload is a
well-formed PNG data URL of bounded size and the targeted event is the
caller's status-OK CLOCK_OUT row (whether or not it is already signed — a
prior signature is overwritten); on failure no event is modified; rows that
do not match are untouched, and no update ever changes a column outside the
signature pair; and `submitPunch` only appends, leaving every existing event
row unchanged. -/
theorem attachSignature_spec (w : World) (userId shiftId sig : String)
    (now : Int) :
    ((attachSignature w userId shiftId sig now).2 = .ok ↔
        (shiftId ≠ "" ∧ strStartsWith sig "data:image/png;base64," = true
          ∧ sig.length ≤ 300000
          ∧ ∃ e ∈ w.events, attachSigMatches userId shiftId e = true))
      ∧ ((attachSignature w userId shiftId sig now).2 ≠ .ok →
          (attachSignature w userId shiftId sig now).1.events = w.events)
      ∧ (attachSignature w userId shiftId sig now).1.events.length
          = w.events.length
      ∧ (∀ i (h1 : i < w.events.length)
          (h2 : i < (attachSignature w userId shiftId sig now).1.events.length),
          (attachSigMatches userId shiftId (w.events.get ⟨i, h1⟩) = false →
            (attachSignature w userId shiftId sig now).1.events.get ⟨i, h2⟩
              = w.events.get ⟨i, h1⟩)
          ∧ sameExceptSignature (w.events.get ⟨i, h1⟩)
              ((attachSignature w userId shiftId sig now).1.events.get ⟨i, h2⟩))
      ∧ (∀ (hash : String → String) (dist : GeoPoint → Rat)
          (profile : Option ContractorProfile) (wifi : WifiAllowlistStatus)
          (ip : Option String) (req : SubmitRequest) (w' : World),
          (submitPunch hash dist profile wifi ip req now w').1.events.take
            w'.events.length = w'.events) := by
  by_cases hid : shiftId = ""
  · have hout : attachSignature w userId shiftId sig now = (w, .missingShiftId) := by
      unfold attachSignature
      rw [if_pos hid]
    rw [hout]
    refine ⟨by simp [hid], fun _ => rfl, rfl, ?_, ?_⟩
    · intro i h1 h2
      exact ⟨fun _ => rfl, sameExceptSignature_refl _⟩
    · intro hash dist profile wifi ip req w'
      exact submitPunch_preserves_events hash dist profile wifi ip req now w'
  · by_cases hpre : strStartsWith sig "data:image/png;base64," = true
    · by_cases hlen : sig.length ≤ 300000
      · have hout : attachSignature w userId shiftId sig now =
            ({ w with events := w.events.map (fun e =>
                if attachSigMatches userId shiftId e then
                  { e with signedAt := some now, signaturePngBase64 := some sig }
                else e) },
              if w.events.countP (attachSigMatches userId shiftId) = 0
                then .notFound else .ok) := by
          unfold attachSignature
          rw [if_neg hid, if_neg (by simp [hpre]), if_neg (by omega)]
        have hget : ∀ i (h1 : i < w.events.length)
            (h2 : i < (w.events.map (fun e =>
              if attachSigMatches userId shiftId e then
                { e with signedAt := some now, signaturePngBase64 := some sig }
              else e)).length),
            (w.events.map (fun e =>
              if attachSigMatches userId shiftId e then
                { e with signedAt := some now, signaturePngBase64 := some sig }
              else e)).get ⟨i, h2⟩
              = (if attachSigMatches userId shiftId (w.events.get ⟨i, h1⟩) then
                  { w.events.get ⟨i, h1⟩ with
                    signedAt := some now, signaturePngBase64 := some sig }
                else w.events.get ⟨i, h1⟩) := by
          intro i h1 h2
          simp
        rw [hout]
        refine ⟨?_, ?_, by simp, ?_, ?_⟩
        · by_cases hcnt : w.events.countP (attachSigMatches userId shiftId) = 0
          · rw [if_pos hcnt]
            constructor
            · intro h; cases h
            · rintro ⟨_, _, _, e, he, hm⟩
              have := List.countP_pos_iff.mpr ⟨e, he, hm⟩
              omega
          · rw [if_neg hcnt]
            constructor
            · intro _
              rcases List.countP_pos_iff.mp (Nat.pos_of_ne_zero hcnt) with ⟨e, he, hm⟩
              exact ⟨hid, hpre, hlen, e, he, hm⟩
            · intro _; rfl
        · by_cases hcnt : w.events.countP (attachSigMatches userId shiftId) = 0
          · rw [if_pos hcnt]
            intro _
            have hnone : ∀ e ∈ w.events, ¬ attachSigMatches userId shiftId e = true := by
              intro e he hm
              have := List.countP_pos_iff.mpr ⟨e, he, hm⟩
              omega
            show w.events.map _ = w.events
            rw [List.map_congr_left (g := id), List.map_id]
            intro e he
            rw [if_neg (hnone e he)]
            rfl
          · rw [if_neg hcnt]
            intro hne
            exact absurd rfl hne
        · intro i h1 h2
          rw [hget i h1 h2]
          constructor
          · intro hm
            have hm' : ¬ attachSigMatches userId shiftId (w.events.get ⟨i, h1⟩) = true := by
              rw [hm]; exact Bool.false_ne_true
            rw [if_neg hm']
          · by_cases hm : attachSigMatches userId shiftId (w.events.get ⟨i, h1⟩) = true
            · rw [if_pos hm]
              exact sameExceptSignature_update _ _ _
            · rw [if_neg hm]
              exact sameExceptSignature_refl _
        · intro hash dist profile wifi ip req w'
          exact submitPunch_preserves_events hash dist profile wifi ip req now w'
      · have hout : attachSignature w userId shiftId sig now = (w, .tooLarge) := by
          unfold attachSignature
          rw [if_neg hid, if_neg (by simp [hpre]), if_pos (by omega)]
        rw [hout]
        refine ⟨?_, fun _ => rfl, rfl, ?_, ?_⟩
        · constructor
          · intro h; cases h
          · rintro ⟨_, _, hl, _⟩
            exact absurd hl hlen
        · intro i h1 h2
          exact ⟨fun _ => rfl, sameExceptSignature_refl _⟩
        · intro hash dist profile wifi ip req w'
          exact submitPunch_preserves_events hash dist profile wifi ip req now w'
    · have hout : attachSignature w userId shiftId sig now = (w, .invalidFormat) := by
        unfold attachSignature
        rw [if_neg hid, if_pos (by simp [hpre])]
      rw [hout]
      refine ⟨?_, fun _ => rfl, rfl, ?_, ?_⟩
      · constructor
        · intro h; cases h
        · rintro ⟨_, hp, _⟩
          exact absurd hp hpre
      · intro i h1 h2
        exact ⟨fun _ => rfl, sameExceptSignature_refl _⟩
      · intro hash dist profile wifi ip req w'
        exact submitPunch_preserves_events hash dist profile wifi ip req now w'

set_option maxRecDepth 10000 in
/-- Witness for C9 applying the success characterization at the concrete
already-signed CLOCK_OUT row. -/
theorem attachSignature_spec_witness :
    (attachSignature signedWorld "u" "e1" "data:image/png;base64,BBBB" 100).2
      = .ok :=
  (attachSignature_spec signedWorld "u" "e1" "data:image/png;base64,BBBB"
      100).1.mpr
    ⟨by decide, by decide, by decide, signedClockOutEvent, by decide, by decide⟩

theorem wifiOkOf_iff (wifi : WifiAllowlistStatus) :
    wifiOkOf wifi = true ↔ (wifi = .PASS ∨ wifi = .DEV_BYPASS) := by
  cases wifi <;> simp [wifiOkOf]

theorem locOkOf_iff (dist : GeoPoint → Rat) (geo : Option GeoPoint) :
    locOkOf dist geo = true ↔
      (∃ g, geo = some g ∧ dist g ≤ siteRadiusMeters
        ∧ (∀ a, g.accuracyMeters = some a → a ≤ 200)) := by
  cases geo with
  | none => simp [locOkOf, inRangeOf, accuracyOkOf]
  | some g =>
    cases hacc : g.accuracyMeters with
    | none => simp [locOkOf, inRangeOf, accuracyOkOf, hacc]
    | some a =>
      simp [locOkOf, inRangeOf, accuracyOkOf, hacc]

/-- C2: the verification gate passes exactly when the network channel is
PASS/DEV_BYPASS or a coordinate is present within the site radius with
acceptable (≤ 200 m or absent) accuracy; when both channels fail the blocked
reason follows the priority no-coordinate → low accuracy → out-of-range →
generic denial; and a failing gate is what `submitPunch` reports for an
eligible caller. -/
theorem verification_gate_spec (dist : GeoPoint → Rat)
    (wifi : WifiAllowlistStatus) (geo : Option GeoPoint) :
    (verifGateReason dist wifi geo = none ↔
        ((wifi = .PASS ∨ wifi = .DEV_BYPASS)
          ∨ ∃ g, geo = some g ∧ dist g ≤ siteRadiusMeters
              ∧ (∀ a, g.accuracyMeters = some a → a ≤ 200)))
      ∧ (wifiOkOf wifi = false → geo = none →
          verifGateReason dist wifi geo = some .LOCATION_UNAVAILABLE)
      ∧ (∀ g a, wifiOkOf wifi = false → geo = some g →
          g.accuracyMeters = some a → 200 < a →
          verifGateReason dist wifi geo = some .ACCURACY_LOW)
      ∧ (∀ g, wifiOkOf wifi = false → geo = some g →
          accuracyOkOf geo = true → siteRadiusMeters < dist g →
          verifGateReason dist wifi geo = some .OUT_OF_RANGE)
      ∧ (∀ (hash : String → String) (profile : ContractorProfile)
          (ip : Option String) (req : SubmitRequest) (now : Int) (w : World)
          (r : StaffingBlockReason),
          eligibleProfile (some profile) = true →
          verifGateReason dist wifi req.geo = some r →
          (submitPunch hash dist (some profile) wifi ip req now w).2
            = .blocked r) := by
  refine ⟨?_, ?_, ?_, ?_, ?_⟩
  · have h1 : verifGateReason dist wifi geo = none ↔
        (wifiOkOf wifi = true ∨ locOkOf dist geo = true) := by
      unfold verifGateReason
      cases hw : wifiOkOf wifi <;> cases hl : locOkOf dist geo <;> simp
    rw [h1, wifiOkOf_iff, locOkOf_iff]
  · intro hw hgeo
    subst hgeo
    unfold verifGateReason
    have hl : locOkOf dist none = false := by simp [locOkOf]
    rw [hw, hl]
    simp
  · intro g a hw hgeo hacc ha
    subst hgeo
    have haccok : accuracyOkOf (some g) = false := by
      simp [accuracyOkOf, hacc, not_le]
      exact ha
    have hl : locOkOf dist (some g) = false := by
      simp [locOkOf, haccok]
    unfold verifGateReason
    rw [hw, hl]
    simp [haccok]
  · intro g hw hgeo haccok hdist
    subst hgeo
    have hin : inRangeOf dist (some g) = false := by
      simp [inRangeOf, not_le]
      exact hdist
    have hl : locOkOf dist (some g) = false := by
      simp [locOkOf, hin]
    unfold verifGateReason
    rw [hw, hl]
    simp [haccok, hin]
  · intro hash profile ip req now w r he hv
    simp only [submitPunch]
    rw [he]
    simp only [Bool.not_true, Bool.false_eq_true, if_false]
    rw [hv]

/-- Witness for C2: both channels failing with a 500 m accuracy coordinate is
blocked as ACCURACY_LOW. -/
theorem verification_gate_spec_witness :
    verifGateReason (fun _ => 0) .FAIL
        (some { lat := 0, lng := 0, accuracyMeters := some 500 })
      = some .ACCURACY_LOW :=
  (verification_gate_spec (fun _ => 0) .FAIL
      (some { lat := 0, lng := 0, accuracyMeters := some 500 })).2.2.1
    { lat := 0, lng := 0, accuracyMeters := some 500 } 500 rfl rfl rfl
    (by norm_num)

/-- A valid, unexpired punch token for user `u` on device `d` (the abstract
hash is the identity in scenarios). -/
def scenarioToken : PunchTokenRow :=
  { id := "t1", userId := "u", deviceId := "d", userAgentHash := none,
    tokenHash := "tok", issuedAt := 0, expiresAt := 1000000000000,
    revokedAt := none, lastSeenAt := none }

/-- A store with no events, the scenario token, and idle rate limiters. -/
def scenarioWorld : World :=
  { events := [], tokens := [scenarioToken], nextEventId := 0,
    userBuckets := fun _ => [], ipBuckets := fun _ => [] }

/-- A fully-equipped clock-in request for user `u`. -/
def scenarioRequest : SubmitRequest :=
  { userId := "u", siteId := some "DTX", type := .CLOCK_IN,
    clientReportedTimestamp := none, geo := none, notes := none,
    deviceIdHeader := "d", punchTokenHeader := "tok",
    idempotencyKeyHeader := "k", userAgent := "ua" }

/-- An active LTC contractor profile. -/
def scenarioProfile : ContractorProfile :=
  { employmentType := .LTC, agency := .PROLOGISTIX, isActive := true }

set_option maxRecDepth 8000 in
/-- C1: an ineligible caller is rejected before any audit write; for an
eligible caller `submitPunch` appends exactly one event to the log, whose
status/reason pair mirrors the outcome — BLOCKED with the failing gate's
reason on every rejection, OK with no reason on success. -/
theorem submitPunch_audit (hash : String → String) (dist : GeoPoint → Rat)
    (profile : Option ContractorProfile) (wifi : WifiAllowlistStatus)
    (ip : Option String) (req : SubmitRequest) (now : Int) (w : World) :
    (eligibleProfile profile = false →
        (submitPunch hash dist profile wifi ip req now w).1.events = w.events
          ∧ (submitPunch hash dist profile wifi ip req now w).2 = .notEligible)
      ∧ (eligibleProfile profile = true →
          ∃ ev, (submitPunch hash dist profile wifi ip req now w).1.events
              = w.events ++ [ev]
            ∧ (∀ r, (submitPunch hash dist profile wifi ip req now w).2
                  = .blocked r
                ↔ (ev.status = .BLOCKED ∧ ev.reason = some r))
            ∧ ((∃ sid, (submitPunch hash dist profile wifi ip req now w).2
                  = .ok sid)
                ↔ (ev.status = .OK ∧ ev.reason = none))) := by
  cases profile with
  | none =>
    constructor
    · intro _
      exact ⟨rfl, rfl⟩
    · intro h
      exact absurd h (by simp [eligibleProfile])
  | some p =>
    by_cases he : eligibleProfile (some p) = true
    · constructor
      · intro h
        rw [he] at h
        cases h
      · intro _
        obtain ⟨w', out, hsp⟩ :
            ∃ w' out, submitPunch hash dist (some p) wifi ip req now w
              = (w', out) := ⟨_, _, rfl⟩
        rw [hsp]
        simp only [submitPunch] at hsp
        rw [he] at hsp
        simp only [Bool.not_true, Bool.false_eq_true, if_false] at hsp
        split at hsp
        · injection hsp with hw1 hw2
          subst hw1
          subst hw2
          refine ⟨_, rfl, ?_, ?_⟩
          · intro r
            constructor
            · intro hb
              injection hb with hr
              subst hr
              exact ⟨rfl, rfl⟩
            · rintro ⟨_, hr⟩
              have hr' := Option.some.inj hr
              rw [hr']
          · constructor
            · rintro ⟨sid, hb⟩
              exact PunchOutcome.noConfusion hb
            · rintro ⟨hs, _⟩
              exact StaffingEventStatus.noConfusion hs
        ·
          split at hsp
          · injection hsp with hw1 hw2
            subst hw1
            subst hw2
            refine ⟨_, rfl, ?_, ?_⟩
            · intro r
              constructor
              · intro hb
                injection hb with hr
                subst hr
                exact ⟨rfl, rfl⟩
              · rintro ⟨_, hr⟩
                have hr' := Option.some.inj hr
                rw [hr']
            · constructor
              · rintro ⟨sid, hb⟩
                exact PunchOutcome.noConfusion hb
              · rintro ⟨hs, _⟩
                exact StaffingEventStatus.noConfusion hs
          ·
            split at hsp
            · injection hsp with hw1 hw2
              subst hw1
              subst hw2
              refine ⟨_, rfl, ?_, ?_⟩
              · intro r
                constructor
                · intro hb
                  injection hb with hr
                  subst hr
                  exact ⟨rfl, rfl⟩
                · rintro ⟨_, hr⟩
                  have hr' := Option.some.inj hr
                  rw [hr']
              · constructor
                · rintro ⟨sid, hb⟩
                  exact PunchOutcome.noConfusion hb
                · rintro ⟨hs, _⟩
                  exact StaffingEventStatus.noConfusion hs
            ·
              split at hsp
              · injection hsp with hw1 hw2
                subst hw1
                subst hw2
                refine ⟨_, rfl, ?_, ?_⟩
                · intro r
                  constructor
                  · intro hb
                    injection hb with hr
                    subst hr
                    exact ⟨rfl, rfl⟩
                  · rintro ⟨_, hr⟩
                    have hr' := Option.some.inj hr
                    rw [hr']
                · constructor
                  · rintro ⟨sid, hb⟩
                    exact PunchOutcome.noConfusion hb
                  · rintro ⟨hs, _⟩
                    exact StaffingEventStatus.noConfusion hs
              ·
                split at hsp
                · injection hsp with hw1 hw2
                  subst hw1
                  subst hw2
                  refine ⟨_, rfl, ?_, ?_⟩
                  · intro r
                    constructor
                    · intro hb
                      injection hb with hr
                      subst hr
                      exact ⟨rfl, rfl⟩
                    · rintro ⟨_, hr⟩
                      have hr' := Option.some.inj hr
                      rw [hr']
                  · constructor
                    · rintro ⟨sid, hb⟩
                      exact PunchOutcome.noConfusion hb
                    · rintro ⟨hs, _⟩
                      exact StaffingEventStatus.noConfusion hs
                ·
                  split at hsp
                  · injection hsp with hw1 hw2
                    subst hw1
                    subst hw2
                    refine ⟨_, rfl, ?_, ?_⟩
                    · intro r
                      constructor
                      · intro hb
                        injection hb with hr
                        subst hr
                        exact ⟨rfl, rfl⟩
                      · rintro ⟨_, hr⟩
                        have hr' := Option.some.inj hr
                        rw [hr']
                    · constructor
                      · rintro ⟨sid, hb⟩
                        exact PunchOutcome.noConfusion hb
                      · rintro ⟨hs, _⟩
                        exact StaffingEventStatus.noConfusion hs
                  ·
                    split at hsp
                    · injection hsp with hw1 hw2
                      subst hw1
                      subst hw2
                      refine ⟨_, rfl, ?_, ?_⟩
                      · intro r
                        constructor
                        · intro hb
                          injection hb with hr
                          subst hr
                          exact ⟨rfl, rfl⟩
                        · rintro ⟨_, hr⟩
                          have hr' := Option.some.inj hr
                          rw [hr']
                      · constructor
                        · rintro ⟨sid, hb⟩
                          exact PunchOutcome.noConfusion hb
                        · rintro ⟨hs, _⟩
                          exact StaffingEventStatus.noConfusion hs
                    ·
                      split at hsp
                      · injection hsp with hw1 hw2
                        subst hw1
                        subst hw2
                        refine ⟨_, rfl, ?_, ?_⟩
                        · intro r
                          constructor
                          · intro hb
                            injection hb with hr
                            subst hr
                            exact ⟨rfl, rfl⟩
                          · rintro ⟨_, hr⟩
                            have hr' := Option.some.inj hr
                            rw [hr']
                        · constructor
                          · rintro ⟨sid, hb⟩
                            exact PunchOutcome.noConfusion hb
                          · rintro ⟨hs, _⟩
                            exact StaffingEventStatus.noConfusion hs
                      ·
                        split at hsp
                        · injection hsp with hw1 hw2
                          subst hw1
                          subst hw2
                          refine ⟨_, rfl, ?_, ?_⟩
                          · intro r
                            constructor
                            · intro hb
                              injection hb with hr
                              subst hr
                              exact ⟨rfl, rfl⟩
                            · rintro ⟨_, hr⟩
                              have hr' := Option.some.inj hr
                              rw [hr']
                          · constructor
                            · rintro ⟨sid, hb⟩
                              exact PunchOutcome.noConfusion hb
                            · rintro ⟨hs, _⟩
                              exact StaffingEventStatus.noConfusion hs
                        · injection hsp with hw1 hw2
                          subst hw1
                          subst hw2
                          refine ⟨_, rfl, ?_, ?_⟩
                          · intro r
                            constructor
                            · intro hb
                              exact PunchOutcome.noConfusion hb
                            · rintro ⟨hs, _⟩
                              exact StaffingEventStatus.noConfusion hs
                          · exact ⟨fun _ => ⟨rfl, rfl⟩, fun _ => ⟨_, rfl⟩⟩
    · have he' : eligibleProfile (some p) = false := by
        cases h : eligibleProfile (some p)
        · rfl
        · exact absurd h he
      constructor
      · intro _
        constructor
        · simp only [submitPunch]
          rw [he']
          rfl
        · simp only [submitPunch]
          rw [he']
          rfl
      · intro h
        rw [he'] at h
        cases h

/-- Witness for C1: the eligible scenario caller's punch appends exactly one
event whose status/reason mirrors the outcome. -/
theorem submitPunch_audit_witness :
    ∃ ev, (submitPunch id (fun _ => 0) (some scenarioProfile) .PASS
          (some "1.2.3.4") scenarioRequest 0 scenarioWorld).1.events
        = scenarioWorld.events ++ [ev]
      ∧ (∀ r, (submitPunch id (fun _ => 0) (some scenarioProfile) .PASS
            (some "1.2.3.4") scenarioRequest 0 scenarioWorld).2 = .blocked r
          ↔ (ev.status = .BLOCKED ∧ ev.reason = some r))
      ∧ ((∃ sid, (submitPunch id (fun _ => 0) (some scenarioProfile) .PASS
            (some "1.2.3.4") scenarioRequest 0 scenarioWorld).2 = .ok sid)
          ↔ (ev.status = .OK ∧ ev.reason = none)) :=
  (submitPunch_audit id (fun _ => 0) (some scenarioProfile) .PASS
      (some "1.2.3.4") scenarioRequest 0 scenarioWorld).2 rfl

/-- The store after the scenario clock-in at t = 0 (one OK event carrying
idempotency key `k`). -/
def c5World1 : World :=
  (submitPunch id (fun _ => 0) (some scenarioProfile) .PASS (some "1.2.3.4")
    scenarioRequest 0 scenarioWorld).1

/-- The store after the same key is replayed one hour later (adds one
REUSED_IDEMPOTENCY_KEY-blocked event). -/
def c5World2 : World :=
  (submitPunch id (fun _ => 0) (some scenarioProfile) .PASS (some "1.2.3.4")
    scenarioRequest 3600000 c5World1).1

/-- The third submission, reusing key `k` for the clock-out. -/
def c5Request3 : SubmitRequest := { scenarioRequest with type := .CLOCK_OUT }

theorem submitPunch_reuse_iff (hash : String → String)
    (dist : GeoPoint → Rat) (p : ContractorProfile)
    (wifi : WifiAllowlistStatus) (ip : Option String) (req : SubmitRequest)
    (now : Int) (w : World)
    (he : eligibleProfile (some p) = true)
    (hverif : verifGateReason dist wifi req.geo = none)
    (hdev : ¬ req.deviceIdHeader = "")
    (hiprate : (hitKey 60000 30 w.ipBuckets (ipKeyOf ip) now).1.allowed = true)
    (huserrate :
      (hitKey 60000 10 w.userBuckets ("user:" ++ req.userId) now).1.allowed
        = true)
    (hkey : ¬ req.idempotencyKeyHeader = "") :
    ((submitPunch hash dist (some p) wifi ip req now w).2
        = .blocked .REUSED_IDEMPOTENCY_KEY
      ↔ idempotencyKeyExists w req.idempotencyKeyHeader now = true) := by
  obtain ⟨w', out, hsp⟩ :
      ∃ w' out, submitPunch hash dist (some p) wifi ip req now w = (w', out) :=
    ⟨_, _, rfl⟩
  rw [hsp]
  simp only [submitPunch] at hsp
  rw [he] at hsp
  simp only [Bool.not_true, Bool.false_eq_true, if_false] at hsp
  simp only [hverif] at hsp
  rw [if_neg hdev] at hsp
  have hrate : (!(hitKey 60000 30 w.ipBuckets (ipKeyOf ip) now).1.allowed
      || !(hitKey 60000 10 w.userBuckets ("user:" ++ req.userId) now).1.allowed)
      = false := by
    rw [hiprate, huserrate]
    rfl
  rw [hrate] at hsp
  simp only [Bool.false_eq_true, if_false] at hsp
  rw [if_neg hkey] at hsp
  cases hex : idempotencyKeyExists w req.idempotencyKeyHeader now with
  | true =>
    have hex' : idempotencyKeyExists
        { events := w.events, tokens := w.tokens, nextEventId := w.nextEventId,
          userBuckets :=
            (hitKey 60000 10 w.userBuckets ("user:" ++ req.userId) now).2,
          ipBuckets := (hitKey 60000 30 w.ipBuckets (ipKeyOf ip) now).2 }
        req.idempotencyKeyHeader now = true := hex
    rw [if_pos hex'] at hsp
    injection hsp with hw1 hw2
    subst hw2
    exact iff_of_true rfl rfl
  | false =>
    have hex' : ¬ idempotencyKeyExists
        { events := w.events, tokens := w.tokens, nextEventId := w.nextEventId,
          userBuckets :=
            (hitKey 60000 10 w.userBuckets ("user:" ++ req.userId) now).2,
          ipBuckets := (hitKey 60000 30 w.ipBuckets (ipKeyOf ip) now).2 }
        req.idempotencyKeyHeader now = true := by
      intro hc
      rw [show idempotencyKeyExists w req.idempotencyKeyHeader now = true
        from hc] at hex
      cases hex
    rw [if_neg hex'] at hsp
    refine iff_of_false ?_ (by simp [hex])
    intro hout
    have hout' : out = PunchOutcome.blocked .REUSED_IDEMPOTENCY_KEY := hout
    rw [hout'] at hsp
    split at hsp
    · injection hsp with h1 h2
      injection h2 with h3
      exact StaffingBlockReason.noConfusion h3
    · split at hsp
      · injection hsp with h1 h2
        injection h2 with h3
        exact StaffingBlockReason.noConfusion h3
      · split at hsp
        · injection hsp with h1 h2
          injection h2 with h3
          exact StaffingBlockReason.noConfusion h3
        · split at hsp
          · injection hsp with h1 h2
            injection h2 with h3
            exact StaffingBlockReason.noConfusion h3
          · injection hsp with h1 h2
            exact PunchOutcome.noConfusion h2

set_option maxRecDepth 40000 in
/-- C5: once the earlier gates pass, `submitPunch` is blocked with
REUSED_IDEMPOTENCY_KEY exactly when some event already carries the same key
inside the trailing 24h window; concretely, submitting key `k` twice within
24h yields exactly one OK event and one REUSED-blocked event (both carrying
the key), and a third submission after the window has elapsed since both
succeeds when state permits. -/
theorem submitPunch_idempotency_window :
    (∀ (hash : String → String) (dist : GeoPoint → Rat) (p : ContractorProfile)
        (wifi : WifiAllowlistStatus) (ip : Option String) (req : SubmitRequest)
        (now : Int) (w : World),
      eligibleProfile (some p) = true →
      verifGateReason dist wifi req.geo = none →
      ¬ req.deviceIdHeader = "" →
      (hitKey 60000 30 w.ipBuckets (ipKeyOf ip) now).1.allowed = true →
      (hitKey 60000 10 w.userBuckets ("user:" ++ req.userId) now).1.allowed
        = true →
      ¬ req.idempotencyKeyHeader = "" →
      ((submitPunch hash dist (some p) wifi ip req now w).2
          = .blocked .REUSED_IDEMPOTENCY_KEY
        ↔ idempotencyKeyExists w req.idempotencyKeyHeader now = true))
      ∧ (submitPunch id (fun _ => 0) (some scenarioProfile) .PASS
          (some "1.2.3.4") scenarioRequest 0 scenarioWorld).2 = .ok none
      ∧ (submitPunch id (fun _ => 0) (some scenarioProfile) .PASS
          (some "1.2.3.4") scenarioRequest 3600000 c5World1).2
        = .blocked .REUSED_IDEMPOTENCY_KEY
      ∧ (c5World2.events.map (fun e => (e.status, e.reason, e.idempotencyKey)))
        = [(.OK, none, some "k"),
            (.BLOCKED, some .REUSED_IDEMPOTENCY_KEY, some "k")]
      ∧ (submitPunch id (fun _ => 0) (some scenarioProfile) .PASS
          (some "1.2.3.4") c5Request3 90000001 c5World2).2 = .ok (some "evt-2") := by
  refine ⟨?_, by decide, by decide, by decide, by decide⟩
  intro hash dist p wifi ip req now w he hverif hdev hiprate huserrate hkey
  exact submitPunch_reuse_iff hash dist p wifi ip req now w he hverif hdev
    hiprate huserrate hkey

set_option maxRecDepth 40000 in
/-- Witness for C5 applying the reuse characterization after the scenario
clock-in: the key is found inside the window, so the second submission is
blocked as a reuse. -/
theorem submitPunch_idempotency_window_witness :
    (submitPunch id (fun _ => 0) (some scenarioProfile) .PASS (some "1.2.3.4")
        scenarioRequest 3600000 c5World1).2 = .blocked .REUSED_IDEMPOTENCY_KEY :=
  (submitPunch_idempotency_window.1 id (fun _ => 0) scenarioProfile .PASS
      (some "1.2.3.4") scenarioRequest 3600000 c5World1 rfl rfl
      (by decide) (by decide) (by decide) (by decide)).mpr (by decide)

theorem submitPunch_reuse_result (hash : String → String)
    (dist : GeoPoint → Rat) (p : ContractorProfile)
    (wifi : WifiAllowlistStatus) (ip : Option String) (req : SubmitRequest)
    (now : Int) (w : World)
    (he : eligibleProfile (some p) = true)
    (hverif : verifGateReason dist wifi req.geo = none)
    (hdev : ¬ req.deviceIdHeader = "")
    (hiprate : (hitKey 60000 30 w.ipBuckets (ipKeyOf ip) now).1.allowed = true)
    (huserrate :
      (hitKey 60000 10 w.userBuckets ("user:" ++ req.userId) now).1.allowed
        = true)
    (hkey : ¬ req.idempotencyKeyHeader = "")
    (hex : idempotencyKeyExists w req.idempotencyKeyHeader now = true) :
    ∃ ev, (submitPunch hash dist (some p) wifi ip req now w).1.events
        = w.events ++ [ev]
      ∧ ev.status = .BLOCKED
      ∧ ev.reason = some .REUSED_IDEMPOTENCY_KEY
      ∧ ev.idempotencyKey = some req.idempotencyKeyHeader
      ∧ ev.createdAt = now := by
  obtain ⟨w', out, hsp⟩ :
      ∃ w' out, submitPunch hash dist (some p) wifi ip req now w = (w', out) :=
    ⟨_, _, rfl⟩
  rw [hsp]
  simp only [submitPunch] at hsp
  rw [he] at hsp
  simp only [Bool.not_true, Bool.false_eq_true, if_false] at hsp
  simp only [hverif] at hsp
  rw [if_neg hdev] at hsp
  have hrate : (!(hitKey 60000 30 w.ipBuckets (ipKeyOf ip) now).1.allowed
      || !(hitKey 60000 10 w.userBuckets ("user:" ++ req.userId) now).1.allowed)
      = false := by
    rw [hiprate, huserrate]
    rfl
  rw [hrate] at hsp
  simp only [Bool.false_eq_true, if_false] at hsp
  rw [if_neg hkey] at hsp
  have hex' : idempotencyKeyExists
      { events := w.events, tokens := w.tokens, nextEventId := w.nextEventId,
        userBuckets :=
          (hitKey 60000 10 w.userBuckets ("user:" ++ req.userId) now).2,
        ipBuckets := (hitKey 60000 30 w.ipBuckets (ipKeyOf ip) now).2 }
      req.idempotencyKeyHeader now = true := hex
  rw [if_pos hex'] at hsp
  injection hsp with hw1 hw2
  subst hw1
  refine ⟨_, rfl, rfl, rfl, ?_, rfl⟩
  show (if req.idempotencyKeyHeader = "" then none
    else some req.idempotencyKeyHeader) = some req.idempotencyKeyHeader
  rw [if_neg hkey]

/-- A BLOCKED event written by a different user (`v`) carrying idempotency
key `k` at creation time 0. -/
def crossUserEvent : StaffingTimeEvent :=
  { mkOkEvent "x1" .CLOCK_IN 0 with
    userId := "v", status := .BLOCKED, reason := some .PERMISSION_DENIED,
    idempotencyKey := some "k" }

/-- The scenario store extended with the other user's blocked event. -/
def crossUserWorld : World :=
  { scenarioWorld with events := [crossUserEvent] }

set_option maxRecDepth 40000 in
/-- C10: the idempotency-reuse check is global — `submitPunch` rejects with
REUSED_IDEMPOTENCY_KEY exactly when any event, by any user with any status,
carries the same key inside the trailing 24h window — and the blocked
attempt itself records the key with `createdAt = now`, restarting the
window; concretely, user `u` is blocked by a BLOCKED event of user `v`. -/
theorem submitPunch_idempotency_global :
    (∀ (hash : String → String) (dist : GeoPoint → Rat) (p : ContractorProfile)
        (wifi : WifiAllowlistStatus) (ip : Option String) (req : SubmitRequest)
        (now : Int) (w : World),
      eligibleProfile (some p) = true →
      verifGateReason dist wifi req.geo = none →
      ¬ req.deviceIdHeader = "" →
      (hitKey 60000 30 w.ipBuckets (ipKeyOf ip) now).1.allowed = true →
      (hitKey 60000 10 w.userBuckets ("user:" ++ req.userId) now).1.allowed
        = true →
      ¬ req.idempotencyKeyHeader = "" →
      (((submitPunch hash dist (some p) wifi ip req now w).2
          = .blocked .REUSED_IDEMPOTENCY_KEY
        ↔ ∃ e ∈ w.events, e.idempotencyKey = some req.idempotencyKeyHeader
            ∧ now - 24 * 60 * 60 * 1000 ≤ e.createdAt)
        ∧ (idempotencyKeyExists w req.idempotencyKeyHeader now = true →
            ∃ ev, (submitPunch hash dist (some p) wifi ip req now w).1.events
                = w.events ++ [ev]
              ∧ ev.status = .BLOCKED
              ∧ ev.reason = some .REUSED_IDEMPOTENCY_KEY
              ∧ ev.idempotencyKey = some req.idempotencyKeyHeader
              ∧ ev.createdAt = now)))
      ∧ (submitPunch id (fun _ => 0) (some scenarioProfile) .PASS
          (some "1.2.3.4") scenarioRequest 1000 crossUserWorld).2
        = .blocked .REUSED_IDEMPOTENCY_KEY := by
  constructor
  · intro hash dist p wifi ip req now w he hverif hdev hiprate huserrate hkey
    constructor
    · rw [submitPunch_reuse_iff hash dist p wifi ip req now w he hverif hdev
        hiprate huserrate hkey]
      unfold idempotencyKeyExists
      rw [List.any_eq_true]
      constructor
      · rintro ⟨e, he', hb⟩
        rw [Bool.and_eq_true] at hb
        exact ⟨e, he', by simpa using hb.1, by simpa using hb.2⟩
      · rintro ⟨e, he', h1, h2⟩
        refine ⟨e, he', ?_⟩
        rw [Bool.and_eq_true]
        exact ⟨by simpa using h1, by simpa using h2⟩
    · intro hex
      exact submitPunch_reuse_result hash dist p wifi ip req now w he hverif
        hdev hiprate huserrate hkey hex
  · decide

set_option maxRecDepth 40000 in
/-- Witness for C10 applying the global characterization at the cross-user
store: the other user's BLOCKED event inside the window forces the reuse
rejection. -/
theorem submitPunch_idempotency_global_witness :
    (submitPunch id (fun _ => 0) (some scenarioProfile) .PASS (some "1.2.3.4")
        scenarioRequest 1000 crossUserWorld).2
      = .blocked .REUSED_IDEMPOTENCY_KEY :=
  ((submitPunch_idempotency_global.1 id (fun _ => 0) scenarioProfile .PASS
      (some "1.2.3.4") scenarioRequest 1000 crossUserWorld rfl rfl
      (by decide) (by decide) (by decide) (by decide)).1).mpr
    ⟨crossUserEvent, by decide, by decide, by decide⟩
